import Mathlib

/-! Virtual-machine service of the Azure Stack HCI cluster-api provider.

A shallow embedding of `cloud/services/virtualmachines/virtualmachines.go`.

Conventions of the embedding:

* a Go pointer `*T` is `Option T` (`none` is the nil pointer);
* a Go slice `[]T` is `GoSlice T`, which keeps the nil slice apart from an
  empty non-nil one;
* a Go `error` is `Option GoError` (`none` is the nil error); a function whose
  every `return` hands back either a value with a nil error or a zero value
  with a non-nil error is an `Except GoError _`;
* the collaborators the service calls (compute client, network-interface
  service, key generator, random source) and the constants and helpers of
  other packages are fields of `Service`, `Client` and `Deps`;
* logging and telemetry calls have no effect on the results and are left out.
-/

set_option autoImplicit false

namespace VirtualMachines

/-! ## Go values -/

deriving instance DecidableEq for Except

/-- A Go slice: `nil` is the nil slice, `of xs` a non-nil slice holding `xs`. -/
inductive GoSlice (α : Type) where
  | nil
  | of (elems : List α)
  deriving DecidableEq, Repr

namespace GoSlice

/-- The elements of a slice; the nil slice has none. -/
def toList {α : Type} : GoSlice α → List α
  | nil => []
  | of xs => xs

/-- Go `len(s)`. -/
def len {α : Type} (s : GoSlice α) : Nat := s.toList.length

/-- Go `append(s, x)`: the outcome is never the nil slice. -/
def append {α : Type} (s : GoSlice α) (x : α) : GoSlice α := of (s.toList ++ [x])

end GoSlice

/-- The type `compute.ImageReference` of the SDK: every field is a `*string`. -/
structure ImageReference where
  ID : Option String := none
  Name : Option String := none
  Publisher : Option String := none
  Offer : Option String := none
  Sku : Option String := none
  Version : Option String := none
  deriving DecidableEq, Repr

/-- A non-nil Go `error` as `github.com/pkg/errors` builds it.  `errorf` keeps
the format and the image reference given to `%+v` apart, since the rendered
text of a struct of pointers holds addresses. -/
inductive GoError where
  | new (msg : String)
  | errorf (format : String) (arg : ImageReference)
  | wrap (cause : GoError) (msg : String)
  deriving DecidableEq, Repr

/-- The library call `errors.Wrap(err, msg)` and `errors.Wrapf(err, format, ...)`
with the message already formatted: a nil error stays nil. -/
def Wrapf : Option GoError → String → Option GoError
  | none, _ => none
  | some e, msg => some (GoError.wrap e msg)

/-- The library call `errors.Cause(err)`: the innermost wrapped error. -/
def GoError.cause : GoError → GoError
  | .wrap c _ => c.cause
  | e => e

/-! ## API types (`api/v1beta1`) -/

/-- The string type `infrav1.OSType`. -/
abbrev OSType := String

/-- Modelled from the spec: the constant `infrav1.OSTypeLinux` of `api/v1beta1`,
which is not among the sources; the spec calls the family `linux`. -/
def OSTypeLinux : OSType := "Linux"

/-- Modelled from the spec: the constant `infrav1.OSTypeWindows` of `api/v1beta1`,
which is not among the sources; the first of the two Windows variants. -/
def OSTypeWindows : OSType := "Windows"

/-- Modelled from the spec: the constant `infrav1.OSTypeWindows2022` of
`api/v1beta1`, which is not among the sources; the second Windows variant. -/
def OSTypeWindows2022 : OSType := "Windows2022"

/-- The type `infrav1.Image`, with the fields the service reads. -/
structure Image where
  Publisher : Option String := none
  Offer : Option String := none
  SKU : Option String := none
  ID : Option String := none
  SubscriptionID : Option String := none
  ResourceGroup : Option String := none
  Gallery : Option String := none
  Name : Option String := none
  Version : Option String := none
  OSType : OSType := ""
  deriving DecidableEq, Repr

/-- The type `infrav1.OSDisk`, with the field the service reads. -/
structure OSDisk where
  OSType : OSType := ""
  deriving DecidableEq, Repr

/-! ## Image reference resolution -/

/-- The source function `generateImageID`: the resource ID of an image of a
shared image gallery. -/
def generateImageID (image : Image) : Except GoError String :=
  match image.SubscriptionID with
  | none => .error (.new "Image subscription ID cannot be nil when specifying an image from an AzureStackHCI Shared Image Gallery")
  | some subscriptionID =>
  match image.ResourceGroup with
  | none => .error (.new "Image resource group cannot be nil when specifying an image from an AzureStackHCI Shared Image Gallery")
  | some resourceGroup =>
  match image.Gallery with
  | none => .error (.new "Image gallery cannot be nil when specifying an image from an AzureStackHCI Shared Image Gallery")
  | some gallery =>
  match image.Name with
  | none => .error (.new "Image name cannot be nil when specifying an image from an AzureStackHCI Shared Image Gallery")
  | some name =>
  match image.Version with
  | none => .error (.new "Image version cannot be nil when specifying an image from an AzureStackHCI Shared Image Gallery")
  | some version =>
    .ok ("/subscriptions/" ++ subscriptionID ++ "/resourceGroups/" ++ resourceGroup
      ++ "/providers/Microsoft.Compute/galleries/" ++ gallery ++ "/images/" ++ name
      ++ "/versions/" ++ version)

/-- The marketplace tail of `generateImageReference` (source lines 294-309),
entered with the reference that so far carries the name only. -/
def marketplaceReference (image : Image) (imageRef : ImageReference) :
    Except GoError ImageReference :=
  let imageRef := if image.Publisher.isSome
    then { imageRef with Publisher := image.Publisher } else imageRef
  let imageRef := if image.Offer.isSome
    then { imageRef with Offer := image.Offer } else imageRef
  let imageRef := if image.SKU.isSome
    then { imageRef with Sku := image.SKU } else imageRef
  if image.Version.isSome then
    .ok { imageRef with Version := image.Version }
  else
    .error (.errorf "Image reference cannot be generated, as fields are missing: %+v" imageRef)

/-- The source function `generateImageReference`. -/
def generateImageReference (image : Image) : Except GoError ImageReference :=
  let imageRef : ImageReference := {}
  match image.Name with
  | none => .error (.new "Missing ImageReference")
  | some name =>
    let imageRef := { imageRef with Name := some name }
    match image.ID with
    | some id =>
      -- return early since only the image ID is needed
      .ok { imageRef with ID := some id }
    | none =>
      if image.SubscriptionID.isSome && image.ResourceGroup.isSome && image.Gallery.isSome
          && image.Name.isSome && image.Version.isSome then
        match generateImageID image with
        | .error err => .error err
        | .ok imageID => .ok { imageRef with ID := some imageID }
      else
        marketplaceReference image imageRef

/-! ## SDK types (`moc-sdk-for-go/services/compute`, `.../network`) -/

/-- The string type `compute.Assignment`. -/
abbrev Assignment := String

/-- The SDK constant `compute.GpuDefault`, the default assignment mode. -/
def GpuDefault : Assignment := "GpuDefault"

/-- The string type `compute.VMType`. -/
abbrev VMType := String

structure VirtualHardDisk where
  URI : Option String := none
  deriving DecidableEq, Repr

/-- The type `compute.OSDisk`. -/
structure ComputeOSDisk where
  Vhd : Option VirtualHardDisk := none
  deriving DecidableEq, Repr

/-- The type `compute.DataDisk`; the service only ever builds an empty slice of it. -/
structure DataDisk where
  Vhd : Option VirtualHardDisk := none
  deriving DecidableEq, Repr

structure StorageProfile where
  OsDisk : Option ComputeOSDisk := none
  DataDisks : Option (GoSlice DataDisk) := none
  ImageReference : Option ImageReference := none
  VmConfigContainerName : Option String := none
  deriving DecidableEq, Repr

structure SSHPublicKey where
  Path : Option String := none
  KeyData : Option String := none
  deriving DecidableEq, Repr

structure SSHConfiguration where
  PublicKeys : Option (GoSlice SSHPublicKey) := none
  deriving DecidableEq, Repr

structure LinuxConfiguration where
  SSH : Option SSHConfiguration := none
  DisablePasswordAuthentication : Option Bool := none
  deriving DecidableEq, Repr

/-- The type `compute.WindowsConfiguration`, with the one field the service sets. -/
structure WindowsConfiguration where
  SSH : Option SSHConfiguration := none
  deriving DecidableEq, Repr

structure OSProfile where
  ComputerName : Option String := none
  AdminUsername : Option String := none
  AdminPassword : Option String := none
  CustomData : Option String := none
  OsType : String := ""
  LinuxConfiguration : Option LinuxConfiguration := none
  WindowsConfiguration : Option WindowsConfiguration := none
  deriving DecidableEq, Repr

structure NetworkInterfaceReference where
  ID : Option String := none
  deriving DecidableEq, Repr

structure NetworkProfile where
  NetworkInterfaces : Option (GoSlice NetworkInterfaceReference) := none
  deriving DecidableEq, Repr

structure VirtualMachineGPU where
  Assignment : Option Assignment := none
  deriving DecidableEq, Repr

structure HardwareProfile where
  VMSize : String := ""
  VirtualMachineGPUs : GoSlice (Option VirtualMachineGPU) := GoSlice.nil
  deriving DecidableEq, Repr

structure AvailabilitySetReference where
  Name : Option String := none
  GroupName : Option String := none
  deriving DecidableEq, Repr

structure PlacementGroupReference where
  Name : Option String := none
  GroupName : Option String := none
  deriving DecidableEq, Repr

structure VirtualMachineProperties where
  StorageProfile : Option StorageProfile := none
  OsProfile : Option OSProfile := none
  NetworkProfile : Option NetworkProfile := none
  VmType : VMType := ""
  HardwareProfile : Option HardwareProfile := none
  AvailabilitySetProfile : Option AvailabilitySetReference := none
  PlacementGroupProfile : Option PlacementGroupReference := none
  deriving DecidableEq, Repr

/-- The type `compute.VirtualMachine`: the instance definition sent to the provider. -/
structure VirtualMachine where
  Name : Option String := none
  VirtualMachineProperties : Option VirtualMachineProperties := none
  deriving DecidableEq, Repr

/-- The type `network.Interface`, with the field the service reads. -/
structure NetworkInterface where
  Name : Option String := none
  deriving DecidableEq, Repr

/-- The dynamic value the network-interface service hands back as `interface{}`:
a `network.Interface`, or anything else (nil included). -/
inductive NicValue where
  | iface (nic : NetworkInterface)
  | other
  deriving DecidableEq, Repr

/-- The type `rsa.PublicKey`. -/
structure RsaPublicKey where
  N : Nat
  E : Nat
  deriving DecidableEq, Repr

/-- The type `rsa.PrivateKey`. -/
structure RsaPrivateKey where
  PublicKey : RsaPublicKey
  D : Nat
  deriving DecidableEq, Repr

/-- The interface `ssh.PublicKey`, here the RSA key it was made from. -/
structure SshPublicKey where
  key : RsaPublicKey
  deriving DecidableEq, Repr

/-- The type `infrav1.VM` the converter builds; its fields play no part here. -/
structure InfraVM where
  Name : String := ""
  deriving DecidableEq, Repr

/-! ## The service and its collaborators -/

/-- The source type `Spec`: input specification for Get/CreateOrUpdate/Delete calls. -/
structure Spec where
  Name : String := ""
  NICName : String := ""
  SSHKeyData : GoSlice String := GoSlice.nil
  Size : String := ""
  GpuCount : Int := 0
  Zone : String := ""
  Image : Image := {}
  OSDisk : OSDisk := {}
  CustomData : String := ""
  VMType : VMType := ""
  StorageContainer : String := ""
  AvailabilitySetName : String := ""
  PlacementGroupName : String := ""
  deriving DecidableEq, Repr

/-- The `interface{}` argument of the service methods: a `*Spec`, or a value of
another dynamic type, for which the type assertion fails. -/
inductive SpecArg where
  | vm (vmSpec : Spec)
  | other
  deriving DecidableEq, Repr

/-- The compute provider client (`s.Client`).  `CreateOrUpdate` gives only the
error, the service drops the record it returns. -/
structure Client where
  Get : String → String → Option (GoSlice VirtualMachine) × Option GoError
  CreateOrUpdate : String → String → VirtualMachine → Option GoError
  Delete : String → String → Option GoError

/-- The scope of the service (`s.Scope`), with the resource group it answers
to `GetResourceGroup()`. -/
structure Scope where
  ResourceGroup : String

structure Service where
  Client : Client
  Scope : Scope

/-- What the service uses of other packages: constants and helpers of the
`cloud` package, the converter, the random-string helper of `pkg/util`, the
network-interface service and the key functions of `crypto/rsa` and
`x/crypto/ssh`.  None of them is among the sources, so they are parameters. -/
structure Deps where
  DefaultUserName : String
  GenerateOSDiskName : String → String
  ResourceNotFound : Option GoError → Bool
  SDKToVM : VirtualMachine → Option InfraVM × Option GoError
  RandomAlphaNumericString : Int → String × Option GoError
  nicGet : String → NicValue × Option GoError
  GenerateKey : Nat → Except GoError RsaPrivateKey
  NewPublicKey : RsaPublicKey → Except GoError SshPublicKey
  MarshalAuthorizedKey : SshPublicKey → String

/-- A call on a collaborator, as `Reconcile` records it in its trace. -/
inductive Event where
  | nicGet (name : String)
  | generateKey (bits : Nat)
  | createOrUpdate (group : String) (name : String) (vm : VirtualMachine)
  deriving DecidableEq, Repr

def computerNamePrefix : String := "moc-"

def computerNameLength : Int := 15

/-! ## Profiles, names and keys -/

/-- The source function `generateStorageProfile`. -/
def generateStorageProfile (d : Deps) (vmSpec : Spec) : Except GoError StorageProfile :=
  let osDisk : ComputeOSDisk := { Vhd := some { URI := some (d.GenerateOSDiskName vmSpec.Name) } }
  let dataDisks : GoSlice DataDisk := GoSlice.of []
  match generateImageReference vmSpec.Image with
  | .error err => .error (GoError.wrap err "error getting image reference")
  | .ok imageRef =>
    .ok { OsDisk := some osDisk
          DataDisks := some dataDisks
          ImageReference := some imageRef
          VmConfigContainerName := some vmSpec.StorageContainer }

/-- The source function `generateComputerName`; Go `len` counts bytes. -/
def generateComputerName (d : Deps) (os : OSType) : Except GoError String :=
  let computerName := computerNamePrefix
  let computerName :=
    if os = OSTypeWindows then computerName ++ "w"
    else if os = OSTypeWindows2022 then computerName ++ "w"
    else if os = OSTypeLinux then computerName ++ "l"
    else computerName ++ "u"
  if (computerName.utf8ByteSize : Int) < computerNameLength then
    match d.RandomAlphaNumericString (computerNameLength - computerName.utf8ByteSize) with
    | (_, some err) => .error err
    | (randomString, none) => .ok (computerName ++ randomString)
  else
    .ok computerName

/-- The source function `generateGpuList`: a slice of `gpuCount` nil pointers
is made and the loop then stores an entry at every index. -/
def generateGpuList (gpuCount : Int) : GoSlice (Option VirtualMachineGPU) :=
  if gpuCount ≤ 0 then GoSlice.nil
  else
    let gpuList : List (Option VirtualMachineGPU) := List.replicate gpuCount.toNat none
    let gpuAssignment := GpuDefault
    GoSlice.of ((List.range gpuCount.toNat).foldl
      (fun l i => l.set i (some { Assignment := some gpuAssignment })) gpuList)

/-- Lines 117-129 of `Reconcile`: the supplied keys, or with none supplied the
authorized-keys line of a freshly generated 2048-bit key.  The second
component is the trace of the calls made. -/
def resolveSSHKeyData (d : Deps) (vmSpec : Spec) :
    Except GoError (GoSlice String) × List Event :=
  let sshKeyData := vmSpec.SSHKeyData
  if sshKeyData.len = 0 then
    match d.GenerateKey 2048 with
    | .error perr => (.error (GoError.wrap perr "Failed to generate private key"),
        [Event.generateKey 2048])
    | .ok privateKey =>
      match d.NewPublicKey privateKey.PublicKey with
      | .error perr => (.error (GoError.wrap perr "Failed to generate public key"),
          [Event.generateKey 2048])
      | .ok publicRsaKey =>
        (.ok (GoSlice.of [d.MarshalAuthorizedKey publicRsaKey]), [Event.generateKey 2048])
  else
    (.ok sshKeyData, [])

/-- Lines 131-138 of `Reconcile`: one entry a key, appended in order, each
with the authorized-keys path of the default user. -/
def buildSSHPublicKeys (d : Deps) (sshKeyData : GoSlice String) : GoSlice SSHPublicKey :=
  let sshPublicKeys : GoSlice SSHPublicKey := GoSlice.of []
  let sshKeyPath := "/home/" ++ d.DefaultUserName ++ "/.ssh/authorized_keys"
  sshKeyData.toList.foldl
    (fun acc keyData => acc.append { Path := some sshKeyPath, KeyData := some keyData })
    sshPublicKeys

/-- Lines 145-203 of `Reconcile`: the instance definition, built for Linux
first and then changed in place for Windows, the availability set and the
placement group. -/
def buildVirtualMachine (d : Deps) (s : Service) (vmSpec : Spec)
    (storageProfile : StorageProfile) (nic : NetworkInterface)
    (sshPublicKeys : GoSlice SSHPublicKey) (computerName : String) : VirtualMachine :=
  let osProfile : OSProfile :=
    { ComputerName := some computerName
      AdminUsername := some d.DefaultUserName
      AdminPassword := none
      CustomData := some vmSpec.CustomData
      OsType := vmSpec.OSDisk.OSType
      LinuxConfiguration := some
        { SSH := some { PublicKeys := some sshPublicKeys }
          DisablePasswordAuthentication := some true } }
  let networkProfile : NetworkProfile :=
    { NetworkInterfaces := some (GoSlice.of [{ ID := nic.Name }]) }
  let hardwareProfile : HardwareProfile := { VMSize := vmSpec.Size }
  let hardwareProfile :=
    { hardwareProfile with VirtualMachineGPUs := generateGpuList vmSpec.GpuCount }
  let osProfile :=
    if vmSpec.Image.OSType = OSTypeWindows ∨ vmSpec.Image.OSType = OSTypeWindows2022 then
      { osProfile with
        LinuxConfiguration := none
        AdminPassword := some ""
        AdminUsername := some "Administrator"
        WindowsConfiguration := some { SSH := some { PublicKeys := some sshPublicKeys } } }
    else osProfile
  let properties : VirtualMachineProperties :=
    { StorageProfile := some storageProfile
      OsProfile := some osProfile
      NetworkProfile := some networkProfile
      VmType := vmSpec.VMType
      HardwareProfile := some hardwareProfile }
  let properties :=
    if vmSpec.AvailabilitySetName ≠ "" then
      { properties with
        AvailabilitySetProfile := some
          { Name := some vmSpec.AvailabilitySetName
            GroupName := some s.Scope.ResourceGroup } }
    else properties
  let properties :=
    if vmSpec.PlacementGroupName ≠ "" then
      { properties with
        PlacementGroupProfile := some
          { Name := some vmSpec.PlacementGroupName
            GroupName := some s.Scope.ResourceGroup } }
    else properties
  { Name := some vmSpec.Name, VirtualMachineProperties := some properties }

/-! ## The service methods -/

/-- The source method `Service.Get`: the value and the error it returns. -/
def Service.Get (d : Deps) (s : Service) (spec : SpecArg) :
    Option (VirtualMachine ⊕ Option InfraVM) × Option GoError :=
  match spec with
  | .other => (some (.inl {}), some (GoError.new "invalid vm specification"))
  | .vm vmSpec =>
    let (vm, err) := s.Client.Get s.Scope.ResourceGroup vmSpec.Name
    if err ≠ none then (none, err)
    else
      match vm.map GoSlice.toList with
      | none => (none, Wrapf err ("vm " ++ vmSpec.Name ++ " not found"))
      | some [] => (none, Wrapf err ("vm " ++ vmSpec.Name ++ " not found"))
      | some (first :: _) =>
        let (converted, cerr) := d.SDKToVM first
        (some (.inr converted), cerr)

/-- The source method `Service.Reconcile`: the error it returns and the trace
of the calls it made, in order. -/
def Service.Reconcile (d : Deps) (s : Service) (spec : SpecArg) :
    Option GoError × List Event :=
  match spec with
  | .other => (some (GoError.new "invalid vm specification"), [])
  | .vm vmSpec =>
  match generateStorageProfile d vmSpec with
  | .error err => (some err, [])
  | .ok storageProfile =>
  let trace := [Event.nicGet vmSpec.NICName]
  match d.nicGet vmSpec.NICName with
  | (_, some err) => (some err, trace)
  | (.other, none) => (some (GoError.new "error getting network interface"), trace)
  | (.iface nic, none) =>
  let (keys, keyTrace) := resolveSSHKeyData d vmSpec
  let trace := trace ++ keyTrace
  match keys with
  | .error err => (some err, trace)
  | .ok sshKeyData =>
  let sshPublicKeys := buildSSHPublicKeys d sshKeyData
  match generateComputerName d vmSpec.Image.OSType with
  | .error err => (some (GoError.wrap err "Failed to generate computer name"), trace)
  | .ok computerName =>
  let virtualMachine :=
    buildVirtualMachine d s vmSpec storageProfile nic sshPublicKeys computerName
  let trace := trace ++ [Event.createOrUpdate s.Scope.ResourceGroup vmSpec.Name virtualMachine]
  match s.Client.CreateOrUpdate s.Scope.ResourceGroup vmSpec.Name virtualMachine with
  | some err => (some (GoError.wrap err "cannot create vm"), trace)
  | none => (none, trace)

/-- The source method `Service.Delete`: the error it returns. -/
def Service.Delete (d : Deps) (s : Service) (spec : SpecArg) : Option GoError :=
  match spec with
  | .other => some (GoError.new "invalid vm Specification")
  | .vm vmSpec =>
    let err := s.Client.Delete s.Scope.ResourceGroup vmSpec.Name
    if err ≠ none ∧ d.ResourceNotFound err = true then
      -- already deleted
      none
    else if err ≠ none then
      Wrapf err ("failed to delete vm " ++ vmSpec.Name ++ " in resource group "
        ++ s.Scope.ResourceGroup)
    else
      err

/-- The calls of `CreateOrUpdate` in a trace, in order. -/
def upserts : List Event → List (String × String × VirtualMachine)
  | [] => []
  | .createOrUpdate g n vm :: rest => (g, n, vm) :: upserts rest
  | _ :: rest => upserts rest

/-- The number of calls of the key generator in a trace. -/
def keyGenerations : List Event → Nat
  | [] => 0
  | .generateKey _ :: rest => keyGenerations rest + 1
  | _ :: rest => keyGenerations rest

/-! ## Concrete collaborators, for evaluating the service -/

/-- A client whose `Get` finds no record and whose other calls succeed. -/
def emptyClient : Client :=
  { Get := fun _ _ => (some (GoSlice.of []), none)
    CreateOrUpdate := fun _ _ _ => none
    Delete := fun _ _ => none }

/-- A client whose every call fails with the error `boom`. -/
def failingClient : Client :=
  { Get := fun _ _ => (none, some (GoError.new "boom"))
    CreateOrUpdate := fun _ _ _ => some (GoError.new "boom")
    Delete := fun _ _ => some (GoError.new "boom") }

/-- Collaborators that all succeed: the default user is `clouduser`, the
random source answers with ten characters, the network interface exists. -/
def sampleDeps : Deps :=
  { DefaultUserName := "clouduser"
    GenerateOSDiskName := fun name => name ++ "_OSDisk"
    ResourceNotFound := fun _ => false
    SDKToVM := fun vm => (some { Name := vm.Name.getD "" }, none)
    RandomAlphaNumericString := fun _ => ("ab12cd34ef", none)
    nicGet := fun name => (NicValue.iface { Name := some name }, none)
    GenerateKey := fun _ => .ok { PublicKey := { N := 33, E := 3 }, D := 7 }
    NewPublicKey := fun key => .ok { key := key }
    MarshalAuthorizedKey := fun _ => "ssh-rsa AAAA" }

def sampleService : Service := { Client := emptyClient, Scope := { ResourceGroup := "rg1" } }

/-- An image of the marketplace, with a name and a version. -/
def sampleImage : Image := { Name := some "img1", Version := some "1.0.0", OSType := OSTypeLinux }

/-! ## Theorems: `Get` and `Delete` -/

/-- C1 (the code at the input of the claim): when the client's `Get` returns
no error and no record, a nil pointer or a slice of length 0, `Service.Get`
returns a nil value together with a nil error, because `Wrapf` of the nil
error is nil; no not-found error is returned. -/
theorem Get_no_record_nil_nil (d : Deps) (s : Service) (vmSpec : Spec)
    (vm : Option (GoSlice VirtualMachine))
    (hget : s.Client.Get s.Scope.ResourceGroup vmSpec.Name = (vm, none))
    (hvm : vm = none ∨ ∃ sl, vm = some sl ∧ sl.len = 0) :
    Service.Get d s (.vm vmSpec) = (none, none) := by
  rcases hvm with h | ⟨sl, h, hlen⟩
  · subst h
    simp [Service.Get, hget, Wrapf]
  · subst h
    have hnil : sl.toList = [] := List.length_eq_zero.mp hlen
    simp [Service.Get, hget, Wrapf, hnil]

/-- Witness of `Get_no_record_nil_nil`: a client that finds an empty slice, and
one that finds a nil pointer. -/
theorem Get_no_record_nil_nil_witness :
    (Service.Get sampleDeps sampleService (.vm { Name := "vm1" }) = (none, none))
    ∧ (Service.Get sampleDeps
        { sampleService with Client := { emptyClient with Get := fun _ _ => (none, none) } }
        (.vm { Name := "vm1" }) = (none, none)) :=
  ⟨Get_no_record_nil_nil sampleDeps sampleService { Name := "vm1" } (some (GoSlice.of []))
      rfl (Or.inr ⟨GoSlice.of [], rfl, rfl⟩),
   Get_no_record_nil_nil sampleDeps _ { Name := "vm1" } none rfl (Or.inl rfl)⟩

/-- C2: `Service.Delete` returns nil exactly when the client's `Delete` returned
nil or an error that `ResourceNotFound` accepts; in every other case it returns
the client's error wrapped with the VM name and the resource group, and the
cause of the returned error is the cause of the client's error. -/
theorem Delete_nil_iff_absent (d : Deps) (s : Service) (vmSpec : Spec) :
    (Service.Delete d s (.vm vmSpec) = none ↔
      (s.Client.Delete s.Scope.ResourceGroup vmSpec.Name = none
        ∨ d.ResourceNotFound (s.Client.Delete s.Scope.ResourceGroup vmSpec.Name) = true))
    ∧ (¬ (s.Client.Delete s.Scope.ResourceGroup vmSpec.Name = none
          ∨ d.ResourceNotFound (s.Client.Delete s.Scope.ResourceGroup vmSpec.Name) = true) →
        ∃ e, s.Client.Delete s.Scope.ResourceGroup vmSpec.Name = some e
          ∧ Service.Delete d s (.vm vmSpec)
              = some (GoError.wrap e ("failed to delete vm " ++ vmSpec.Name
                  ++ " in resource group " ++ s.Scope.ResourceGroup))
          ∧ (GoError.wrap e ("failed to delete vm " ++ vmSpec.Name
                  ++ " in resource group " ++ s.Scope.ResourceGroup)).cause = e.cause) := by
  cases he : s.Client.Delete s.Scope.ResourceGroup vmSpec.Name with
  | none => simp [Service.Delete, he]
  | some e =>
    cases hr : d.ResourceNotFound (some e) <;>
      simp [Service.Delete, he, hr, Wrapf, GoError.cause]

/-- Witness of `Delete_nil_iff_absent`: the client fails with an error that is
not a not-found error, and `Delete` returns it wrapped. -/
theorem Delete_nil_iff_absent_witness :
    Service.Delete sampleDeps { sampleService with Client := failingClient } (.vm { Name := "vm1" })
      = some (GoError.wrap (GoError.new "boom") "failed to delete vm vm1 in resource group rg1") := by
  obtain ⟨e, he, hd, _⟩ :=
    (Delete_nil_iff_absent sampleDeps { sampleService with Client := failingClient }
      { Name := "vm1" }).2 (by decide)
  have : e = GoError.new "boom" := by
    have h2 : some (GoError.new "boom") = some e := he
    exact (Option.some.inj h2).symm
  subst this
  exact hd

/-! ## Theorems: image reference resolution -/

/-- The reference the marketplace tail builds: publisher, offer and SKU are
those of the descriptor, set or not. -/
theorem marketplaceReference_eq (image : Image) (imageRef : ImageReference)
    (hp : imageRef.Publisher = none) (ho : imageRef.Offer = none) (hs : imageRef.Sku = none) :
    marketplaceReference image imageRef =
      if image.Version.isSome then
        .ok { imageRef with Publisher := image.Publisher, Offer := image.Offer,
                            Sku := image.SKU, Version := image.Version }
      else
        .error (GoError.errorf "Image reference cannot be generated, as fields are missing: %+v"
          { imageRef with Publisher := image.Publisher, Offer := image.Offer,
                          Sku := image.SKU }) := by
  obtain ⟨id, nm, pb, off, sku, ver⟩ := imageRef
  simp only at hp ho hs
  subst hp ho hs
  unfold marketplaceReference
  cases image.Publisher <;> cases image.Offer <;> cases image.SKU <;> cases image.Version <;> rfl

/-- With a name and no explicit ID, an incomplete gallery tuple sends
`generateImageReference` to the marketplace tail. -/
theorem generateImageReference_fallback (image : Image) (name : String)
    (hname : image.Name = some name) (hid : image.ID = none)
    (hgal : ¬ (image.SubscriptionID ≠ none ∧ image.ResourceGroup ≠ none ∧ image.Gallery ≠ none
      ∧ image.Name ≠ none ∧ image.Version ≠ none)) :
    generateImageReference image = marketplaceReference image { Name := some name } := by
  unfold generateImageReference
  simp only [hname, hid]
  split
  · rename_i h
    exfalso
    apply hgal
    simp only [Bool.and_eq_true, Option.isSome_iff_ne_none] at h
    rw [hname] at hgal
    tauto
  · rfl

/-- C3: a descriptor with a name and an explicit ID resolves to the reference
holding exactly that ID and that name, whatever its other fields are; publisher,
offer, SKU and version of the reference stay unset. -/
theorem generateImageReference_explicit_id (image : Image) (name id : String)
    (hname : image.Name = some name) (hid : image.ID = some id) :
    generateImageReference image =
      .ok { ID := some id, Name := some name, Publisher := none, Offer := none,
            Sku := none, Version := none } := by
  simp [generateImageReference, hname, hid]

/-- Witness of `generateImageReference_explicit_id`: every other field is set as well. -/
theorem generateImageReference_explicit_id_witness :
    generateImageReference
      { Publisher := some "pub", Offer := some "offer", SKU := some "sku", ID := some "/custom/id",
        SubscriptionID := some "sub1", ResourceGroup := some "rg1", Gallery := some "gal1",
        Name := some "img1", Version := some "1.0.0", OSType := OSTypeLinux }
      = .ok { ID := some "/custom/id", Name := some "img1" } :=
  generateImageReference_explicit_id _ "img1" "/custom/id" rfl rfl

/-- C4: a descriptor with no explicit ID and with subscription, resource group,
gallery, name and version all present resolves to the reference whose ID is the
composed gallery path and whose name is the descriptor name, with no
marketplace field set, whatever publisher, offer and SKU are. -/
theorem generateImageReference_gallery (image : Image) (sub rg gallery name version : String)
    (hid : image.ID = none) (hsub : image.SubscriptionID = some sub)
    (hrg : image.ResourceGroup = some rg) (hgal : image.Gallery = some gallery)
    (hname : image.Name = some name) (hver : image.Version = some version) :
    generateImageReference image =
      .ok { ID := some ("/subscriptions/" ++ sub ++ "/resourceGroups/" ++ rg
              ++ "/providers/Microsoft.Compute/galleries/" ++ gallery ++ "/images/" ++ name
              ++ "/versions/" ++ version),
            Name := some name, Publisher := none, Offer := none, Sku := none,
            Version := none } := by
  simp [generateImageReference, generateImageID, hid, hsub, hrg, hgal, hname, hver]

/-- Witness of `generateImageReference_gallery`: the literal path of sub1, rg1,
gal1, img1 and 1.0.0, with a marketplace triple present as well. -/
theorem generateImageReference_gallery_witness :
    generateImageReference
      { Publisher := some "pub", Offer := some "offer", SKU := some "sku",
        SubscriptionID := some "sub1", ResourceGroup := some "rg1", Gallery := some "gal1",
        Name := some "img1", Version := some "1.0.0" }
      = .ok { ID := some "/subscriptions/sub1/resourceGroups/rg1/providers/Microsoft.Compute/galleries/gal1/images/img1/versions/1.0.0",
              Name := some "img1" } :=
  generateImageReference_gallery _ "sub1" "rg1" "gal1" "img1" "1.0.0" rfl rfl rfl rfl rfl rfl

/-- C5: a descriptor without a name fails to resolve, with the error
"Missing ImageReference", whatever its other fields are. -/
theorem generateImageReference_missing_name (image : Image) (hname : image.Name = none) :
    generateImageReference image = .error (GoError.new "Missing ImageReference") := by
  simp [generateImageReference, hname]

/-- Witness of `generateImageReference_missing_name`: an explicit ID, a gallery
tuple and a marketplace triple with version are all present. -/
theorem generateImageReference_missing_name_witness :
    generateImageReference
      { Publisher := some "pub", Offer := some "offer", SKU := some "sku", ID := some "/custom/id",
        SubscriptionID := some "sub1", ResourceGroup := some "rg1", Gallery := some "gal1",
        Name := none, Version := some "1.0.0" }
      = .error (GoError.new "Missing ImageReference") :=
  generateImageReference_missing_name _ rfl

/-- C6: with a name, no explicit ID and an incomplete gallery tuple, a present
version makes `generateImageReference` succeed with publisher, offer and SKU
equal to those of the descriptor (set exactly when they are set there), the
version and the name of the descriptor and no ID; an absent version makes it
fail, whatever publisher, offer and SKU are. -/
theorem generateImageReference_marketplace (image : Image) (name : String)
    (hname : image.Name = some name) (hid : image.ID = none)
    (hgal : ¬ (image.SubscriptionID ≠ none ∧ image.ResourceGroup ≠ none ∧ image.Gallery ≠ none
      ∧ image.Name ≠ none ∧ image.Version ≠ none)) :
    (∀ version, image.Version = some version →
      generateImageReference image =
        .ok { ID := none, Name := some name, Publisher := image.Publisher,
              Offer := image.Offer, Sku := image.SKU, Version := some version })
    ∧ (image.Version = none → ∃ err, generateImageReference image = .error err) := by
  rw [generateImageReference_fallback image name hname hid hgal,
    marketplaceReference_eq image _ rfl rfl rfl]
  constructor
  · intro version hver
    simp [hver]
  · intro hver
    simp [hver]

/-- Witness of `generateImageReference_marketplace`: only publisher and version
are set next to the name, and the reference carries just those. -/
theorem generateImageReference_marketplace_witness :
    (generateImageReference { Publisher := some "pub", Name := some "img1", Version := some "1.0.0" }
      = .ok { Name := some "img1", Publisher := some "pub", Version := some "1.0.0" })
    ∧ (∃ err, generateImageReference
        { Publisher := some "pub", Offer := some "offer", SKU := some "sku", Name := some "img1" }
          = .error err) :=
  ⟨(generateImageReference_marketplace
      { Publisher := some "pub", Name := some "img1", Version := some "1.0.0" } "img1" rfl rfl
      (by decide)).1 "1.0.0" rfl,
   (generateImageReference_marketplace
      { Publisher := some "pub", Offer := some "offer", SKU := some "sku", Name := some "img1" }
      "img1" rfl rfl (by decide)).2 rfl⟩

/-- C7 as stated fails: the descriptor with only a name and a version has no
explicit ID, an incomplete gallery tuple and an incomplete marketplace tuple,
and `generateImageReference` returns a reference for it. -/
theorem generateImageReference_no_mode_counterexample :
    sampleImage.ID = none
    ∧ ¬ (sampleImage.SubscriptionID ≠ none ∧ sampleImage.ResourceGroup ≠ none
        ∧ sampleImage.Gallery ≠ none ∧ sampleImage.Name ≠ none ∧ sampleImage.Version ≠ none)
    ∧ ¬ (sampleImage.Publisher ≠ none ∧ sampleImage.Offer ≠ none ∧ sampleImage.SKU ≠ none
        ∧ sampleImage.Version ≠ none)
    ∧ generateImageReference sampleImage
        = .ok { Name := some "img1", Version := some "1.0.0" } := by
  decide

/-- C7, amended: for a descriptor with no explicit ID, an incomplete gallery
tuple and an incomplete marketplace tuple, `generateImageReference` fails
exactly when the name or the version is absent. -/
theorem generateImageReference_no_mode_fails_iff (image : Image)
    (hid : image.ID = none)
    (hgal : ¬ (image.SubscriptionID ≠ none ∧ image.ResourceGroup ≠ none ∧ image.Gallery ≠ none
      ∧ image.Name ≠ none ∧ image.Version ≠ none))
    (_hmkt : ¬ (image.Publisher ≠ none ∧ image.Offer ≠ none ∧ image.SKU ≠ none
      ∧ image.Version ≠ none)) :
    (∃ err, generateImageReference image = .error err)
      ↔ (image.Name = none ∨ image.Version = none) := by
  cases hname : image.Name with
  | none => simp [generateImageReference, hname]
  | some name =>
    rw [generateImageReference_fallback image name hname hid hgal,
      marketplaceReference_eq image _ rfl rfl rfl]
    cases hver : image.Version <;> simp

/-- Witness of `generateImageReference_no_mode_fails_iff`: a name and a
publisher alone do not resolve. -/
theorem generateImageReference_no_mode_fails_iff_witness :
    ∃ err, generateImageReference { Publisher := some "pub", Name := some "img1" } = .error err :=
  (generateImageReference_no_mode_fails_iff { Publisher := some "pub", Name := some "img1" }
    rfl (by decide) (by decide)).mpr (Or.inr rfl)

/-- A descriptor that sets the subscription of a gallery image, its name and
its version, and leaves out resource group and gallery. -/
def brokenGalleryImage : Image :=
  { SubscriptionID := some "sub1", Name := some "img1", Version := some "1.0.0" }

/-- C8 as stated fails: the descriptor sets the subscription, lacks resource
group and gallery, and `generateImageReference` returns the marketplace
reference for it; without the version the error is the one of the marketplace
tail, not the one that names the resource group. -/
theorem generateImageReference_partial_gallery_counterexample :
    brokenGalleryImage.Name = some "img1" ∧ brokenGalleryImage.ID = none
    ∧ brokenGalleryImage.SubscriptionID ≠ none ∧ brokenGalleryImage.ResourceGroup = none
    ∧ generateImageReference brokenGalleryImage
        = .ok { Name := some "img1", Version := some "1.0.0" }
    ∧ generateImageReference { brokenGalleryImage with Version := none }
        ≠ .error (GoError.new "Image resource group cannot be nil when specifying an image from an AzureStackHCI Shared Image Gallery") := by
  decide

/-- C8, amended: a descriptor with a name and no explicit ID that sets one of
subscription, resource group and gallery but lacks one of the five gallery
components goes to the marketplace tail: with a version it resolves to the
reference with the name, the version and the publisher, offer and SKU of the
descriptor and no ID; without a version it fails with the error of the
marketplace tail, which carries the fields set so far. -/
theorem generateImageReference_partial_gallery (image : Image) (name : String)
    (hname : image.Name = some name) (hid : image.ID = none)
    (_hset : image.SubscriptionID ≠ none ∨ image.ResourceGroup ≠ none ∨ image.Gallery ≠ none)
    (hmiss : image.SubscriptionID = none ∨ image.ResourceGroup = none ∨ image.Gallery = none
      ∨ image.Name = none ∨ image.Version = none) :
    (∀ version, image.Version = some version →
      generateImageReference image =
        .ok { ID := none, Name := some name, Publisher := image.Publisher,
              Offer := image.Offer, Sku := image.SKU, Version := some version })
    ∧ (image.Version = none →
      generateImageReference image =
        .error (GoError.errorf "Image reference cannot be generated, as fields are missing: %+v"
          { ID := none, Name := some name, Publisher := image.Publisher,
            Offer := image.Offer, Sku := image.SKU, Version := none })) := by
  have hgal : ¬ (image.SubscriptionID ≠ none ∧ image.ResourceGroup ≠ none
      ∧ image.Gallery ≠ none ∧ image.Name ≠ none ∧ image.Version ≠ none) := by
    tauto
  rw [generateImageReference_fallback image name hname hid hgal,
    marketplaceReference_eq image _ rfl rfl rfl]
  constructor
  · intro version hver
    simp [hver]
  · intro hver
    simp [hver]

/-- Witness of `generateImageReference_partial_gallery`, with and without a version. -/
theorem generateImageReference_partial_gallery_witness :
    (generateImageReference brokenGalleryImage
      = .ok { Name := some "img1", Version := some "1.0.0" })
    ∧ (generateImageReference { brokenGalleryImage with Version := none }
      = .error (GoError.errorf "Image reference cannot be generated, as fields are missing: %+v"
          { Name := some "img1" })) :=
  ⟨(generateImageReference_partial_gallery brokenGalleryImage "img1" rfl rfl
      (Or.inl (by decide)) (Or.inr (Or.inl rfl))).1 "1.0.0" rfl,
   (generateImageReference_partial_gallery { brokenGalleryImage with Version := none } "img1"
      rfl rfl (Or.inl (by decide)) (Or.inr (Or.inl rfl))).2 rfl⟩

/-! ## Theorems: `Reconcile` -/

/-- The key step records calls of the key generator only. -/
theorem resolveSSHKeyData_trace (d : Deps) (vmSpec : Spec) :
    ∀ e ∈ (resolveSSHKeyData d vmSpec).2, e = Event.generateKey 2048 := by
  intro e he
  by_cases hlen : vmSpec.SSHKeyData.len = 0
  · cases hgen : d.GenerateKey 2048 with
    | error perr => simpa [resolveSSHKeyData, hlen, hgen] using he
    | ok privateKey =>
      cases hpub : d.NewPublicKey privateKey.PublicKey <;>
        simpa [resolveSSHKeyData, hlen, hgen, hpub] using he
  · simp [resolveSSHKeyData, hlen] at he

/-- With a key supplied, the key step hands the supplied keys on and calls nothing. -/
theorem resolveSSHKeyData_supplied (d : Deps) (vmSpec : Spec) (h : 1 ≤ vmSpec.SSHKeyData.len) :
    resolveSSHKeyData d vmSpec = (.ok vmSpec.SSHKeyData, []) := by
  unfold resolveSSHKeyData
  have : ¬ vmSpec.SSHKeyData.len = 0 := by omega
  simp [this]

/-- The loop that builds the public-key entries maps every key to its entry, in order. -/
theorem buildSSHPublicKeys_eq_map (d : Deps) (sshKeyData : GoSlice String) :
    buildSSHPublicKeys d sshKeyData =
      GoSlice.of (sshKeyData.toList.map fun keyData =>
        { Path := some ("/home/" ++ d.DefaultUserName ++ "/.ssh/authorized_keys"),
          KeyData := some keyData }) := by
  have key : ∀ (keys : List String) (acc : List SSHPublicKey),
      keys.foldl (fun (a : GoSlice SSHPublicKey) keyData => a.append
          { Path := some ("/home/" ++ d.DefaultUserName ++ "/.ssh/authorized_keys"),
            KeyData := some keyData }) (GoSlice.of acc)
        = GoSlice.of (acc ++ keys.map fun keyData =>
          { Path := some ("/home/" ++ d.DefaultUserName ++ "/.ssh/authorized_keys"),
            KeyData := some keyData }) := by
    intro keys
    induction keys with
    | nil => intro acc; simp
    | cons k rest ih =>
      intro acc
      rw [List.foldl_cons]
      have happ : ∀ x : SSHPublicKey, (GoSlice.of acc).append x = GoSlice.of (acc ++ [x]) :=
        fun _ => rfl
      rw [happ, ih]
      simp
  unfold buildSSHPublicKeys
  simpa using key sshKeyData.toList []

/-- What a recorded upsert of `Reconcile` says: every earlier step succeeded,
the call is keyed by the resource group of the scope and the VM name, and the
instance definition is the one built from the results of those steps. -/
theorem Reconcile_upsert (d : Deps) (s : Service) (vmSpec : Spec)
    (g n : String) (vm : VirtualMachine)
    (h : Event.createOrUpdate g n vm ∈ (Service.Reconcile d s (.vm vmSpec)).2) :
    ∃ storageProfile nic sshKeyData computerName,
      generateStorageProfile d vmSpec = .ok storageProfile
      ∧ d.nicGet vmSpec.NICName = (NicValue.iface nic, none)
      ∧ (resolveSSHKeyData d vmSpec).1 = .ok sshKeyData
      ∧ generateComputerName d vmSpec.Image.OSType = .ok computerName
      ∧ g = s.Scope.ResourceGroup ∧ n = vmSpec.Name
      ∧ vm = buildVirtualMachine d s vmSpec storageProfile nic
          (buildSSHPublicKeys d sshKeyData) computerName := by
  have hk := resolveSSHKeyData_trace d vmSpec
  unfold Service.Reconcile at h
  cases hsp : generateStorageProfile d vmSpec with
  | error err => simp [hsp] at h
  | ok storageProfile =>
    rcases hnic : d.nicGet vmSpec.NICName with ⟨nicValue, nerr⟩
    cases nerr with
    | some err => simp [hsp, hnic] at h
    | none =>
      cases nicValue with
      | other => simp [hsp, hnic] at h
      | iface nic =>
        rcases hkeys : resolveSSHKeyData d vmSpec with ⟨keys, keyTrace⟩
        rw [hkeys] at hk
        have hnot : Event.createOrUpdate g n vm ∉ keyTrace := by
          intro hmem
          have := hk _ hmem
          cases this
        cases keys with
        | error err => simp [hsp, hnic, hkeys, hnot] at h
        | ok sshKeyData =>
          cases hname : generateComputerName d vmSpec.Image.OSType with
          | error err => simp [hsp, hnic, hkeys, hname, hnot] at h
          | ok computerName =>
            refine ⟨storageProfile, nic, sshKeyData, computerName, rfl, rfl, rfl, rfl, ?_⟩
            cases hcu : s.Client.CreateOrUpdate s.Scope.ResourceGroup vmSpec.Name
              (buildVirtualMachine d s vmSpec storageProfile nic
                (buildSSHPublicKeys d sshKeyData) computerName) <;>
              simp [hsp, hnic, hkeys, hname, hnot, hcu] at h <;>
              exact h

/-- The OS profile of the instance definition that `buildVirtualMachine` returns. -/
theorem buildVirtualMachine_osProfile (d : Deps) (s : Service) (vmSpec : Spec)
    (storageProfile : StorageProfile) (nic : NetworkInterface)
    (sshPublicKeys : GoSlice SSHPublicKey) (computerName : String) :
    ∃ props,
      (buildVirtualMachine d s vmSpec storageProfile nic sshPublicKeys
        computerName).VirtualMachineProperties = some props
      ∧ props.OsProfile = some
        (if vmSpec.Image.OSType = OSTypeWindows ∨ vmSpec.Image.OSType = OSTypeWindows2022 then
          { ComputerName := some computerName
            AdminUsername := some "Administrator"
            AdminPassword := some ""
            CustomData := some vmSpec.CustomData
            OsType := vmSpec.OSDisk.OSType
            LinuxConfiguration := none
            WindowsConfiguration := some { SSH := some { PublicKeys := some sshPublicKeys } } }
        else
          { ComputerName := some computerName
            AdminUsername := some d.DefaultUserName
            AdminPassword := none
            CustomData := some vmSpec.CustomData
            OsType := vmSpec.OSDisk.OSType
            LinuxConfiguration := some
              { SSH := some { PublicKeys := some sshPublicKeys }
                DisablePasswordAuthentication := some true }
            WindowsConfiguration := none }) := by
  unfold buildVirtualMachine
  refine ⟨_, rfl, ?_⟩
  by_cases ha : vmSpec.AvailabilitySetName = "" <;>
    by_cases hp : vmSpec.PlacementGroupName = "" <;>
    by_cases hw : vmSpec.Image.OSType = OSTypeWindows ∨ vmSpec.Image.OSType = OSTypeWindows2022 <;>
    simp [ha, hp, hw]

/-- The OS profile in the instance definition of a recorded upsert, by the OS
type of the image, with the key list built from the keys of the key step. -/
theorem Reconcile_upsert_osProfile (d : Deps) (s : Service) (vmSpec : Spec)
    (g n : String) (vm : VirtualMachine)
    (h : Event.createOrUpdate g n vm ∈ (Service.Reconcile d s (.vm vmSpec)).2) :
    ∃ sshKeyData props os,
      (resolveSSHKeyData d vmSpec).1 = .ok sshKeyData
      ∧ vm.VirtualMachineProperties = some props ∧ props.OsProfile = some os
      ∧ ((vmSpec.Image.OSType = OSTypeWindows ∨ vmSpec.Image.OSType = OSTypeWindows2022) →
          os.LinuxConfiguration = none
          ∧ os.WindowsConfiguration
              = some { SSH := some { PublicKeys := some (buildSSHPublicKeys d sshKeyData) } }
          ∧ os.AdminUsername = some "Administrator" ∧ os.AdminPassword = some "")
      ∧ (¬ (vmSpec.Image.OSType = OSTypeWindows ∨ vmSpec.Image.OSType = OSTypeWindows2022) →
          os.LinuxConfiguration
              = some { SSH := some { PublicKeys := some (buildSSHPublicKeys d sshKeyData) }
                       DisablePasswordAuthentication := some true }
          ∧ os.WindowsConfiguration = none
          ∧ os.AdminUsername = some d.DefaultUserName ∧ os.AdminPassword = none) := by
  obtain ⟨storageProfile, nic, sshKeyData, computerName, -, -, hkeys, -, -, -, hvm⟩ :=
    Reconcile_upsert d s vmSpec g n vm h
  obtain ⟨props, hprops, hos⟩ := buildVirtualMachine_osProfile d s vmSpec storageProfile nic
    (buildSSHPublicKeys d sshKeyData) computerName
  subst hvm
  refine ⟨sshKeyData, props, _, hkeys, hprops, hos, ?_, ?_⟩
  · intro hw
    simp [hw]
  · intro hw
    simp [hw]

/-- C9: in the instance definition of a recorded upsert the OS profile follows
`Image.OSType`.  For Windows and Windows2022 the Linux configuration is absent,
the Windows configuration holds the public-key list built from the supplied or
generated keys, the admin user is "Administrator" and the admin password is the
empty string.  For every other OS type the Linux configuration holds that list
with password authentication disabled, the Windows configuration is absent, the
admin user is `DefaultUserName` and the admin password is absent. -/
theorem Reconcile_osProfile (d : Deps) (s : Service) (vmSpec : Spec)
    (g n : String) (vm : VirtualMachine)
    (h : Event.createOrUpdate g n vm ∈ (Service.Reconcile d s (.vm vmSpec)).2) :
    ∃ sshKeyData props os,
      (resolveSSHKeyData d vmSpec).1 = .ok sshKeyData
      ∧ vm.VirtualMachineProperties = some props ∧ props.OsProfile = some os
      ∧ ((vmSpec.Image.OSType = OSTypeWindows ∨ vmSpec.Image.OSType = OSTypeWindows2022) →
          os.LinuxConfiguration = none
          ∧ os.WindowsConfiguration
              = some { SSH := some { PublicKeys := some (buildSSHPublicKeys d sshKeyData) } }
          ∧ os.AdminUsername = some "Administrator" ∧ os.AdminPassword = some "")
      ∧ (¬ (vmSpec.Image.OSType = OSTypeWindows ∨ vmSpec.Image.OSType = OSTypeWindows2022) →
          os.LinuxConfiguration
              = some { SSH := some { PublicKeys := some (buildSSHPublicKeys d sshKeyData) }
                       DisablePasswordAuthentication := some true }
          ∧ os.WindowsConfiguration = none
          ∧ os.AdminUsername = some d.DefaultUserName ∧ os.AdminPassword = none) :=
  Reconcile_upsert_osProfile d s vmSpec g n vm h

/-- A VM of a Windows image with two supplied keys. -/
def windowsSpec : Spec :=
  { Name := "vm1", NICName := "nic1", SSHKeyData := GoSlice.of ["ssh-rsa KEY1", "ssh-rsa KEY2"],
    Size := "Default", Image := { sampleImage with OSType := OSTypeWindows },
    OSDisk := { OSType := OSTypeWindows }, VMType := "Tenant" }

/-- The instance definition `Reconcile` submits for `windowsSpec`. -/
def windowsVM : VirtualMachine :=
  { Name := some "vm1"
    VirtualMachineProperties := some
      { StorageProfile := some
          { OsDisk := some { Vhd := some { URI := some "vm1_OSDisk" } }
            DataDisks := some (GoSlice.of [])
            ImageReference := some { Name := some "img1", Version := some "1.0.0" }
            VmConfigContainerName := some "" }
        OsProfile := some
          { ComputerName := some "moc-wab12cd34ef"
            AdminUsername := some "Administrator"
            AdminPassword := some ""
            CustomData := some ""
            OsType := "Windows"
            LinuxConfiguration := none
            WindowsConfiguration := some { SSH := some { PublicKeys := some (GoSlice.of
              [{ Path := some "/home/clouduser/.ssh/authorized_keys", KeyData := some "ssh-rsa KEY1" },
               { Path := some "/home/clouduser/.ssh/authorized_keys",
                 KeyData := some "ssh-rsa KEY2" }]) } } }
        NetworkProfile := some { NetworkInterfaces := some (GoSlice.of [{ ID := some "nic1" }]) }
        VmType := "Tenant"
        HardwareProfile := some { VMSize := "Default", VirtualMachineGPUs := GoSlice.nil } } }

/-- The run of `Reconcile` on `windowsSpec`: it succeeds, after one call of the
network-interface service and one upsert. -/
theorem Reconcile_windowsSpec :
    Service.Reconcile sampleDeps sampleService (.vm windowsSpec)
      = (none, [Event.nicGet "nic1", Event.createOrUpdate "rg1" "vm1" windowsVM]) := by
  decide

/-- Witness of `Reconcile_osProfile` at `windowsSpec`: the upsert is reached
and its OS profile is the Windows one, with the two supplied keys. -/
theorem Reconcile_osProfile_witness :
    Event.createOrUpdate "rg1" "vm1" windowsVM
        ∈ (Service.Reconcile sampleDeps sampleService (.vm windowsSpec)).2
    ∧ ∃ props os,
      windowsVM.VirtualMachineProperties = some props ∧ props.OsProfile = some os
      ∧ os.LinuxConfiguration = none
      ∧ os.WindowsConfiguration = some { SSH := some { PublicKeys := some (GoSlice.of
          [{ Path := some "/home/clouduser/.ssh/authorized_keys", KeyData := some "ssh-rsa KEY1" },
           { Path := some "/home/clouduser/.ssh/authorized_keys",
             KeyData := some "ssh-rsa KEY2" }]) } }
      ∧ os.AdminUsername = some "Administrator" ∧ os.AdminPassword = some "" := by
  have hmem : Event.createOrUpdate "rg1" "vm1" windowsVM
      ∈ (Service.Reconcile sampleDeps sampleService (.vm windowsSpec)).2 := by
    rw [Reconcile_windowsSpec]
    simp
  obtain ⟨sshKeyData, props, os, hkeys, hprops, hos, hwin, -⟩ :=
    Reconcile_osProfile sampleDeps sampleService windowsSpec "rg1" "vm1" windowsVM hmem
  have hk : sshKeyData = GoSlice.of ["ssh-rsa KEY1", "ssh-rsa KEY2"] := by
    have h2 : (Except.ok (GoSlice.of ["ssh-rsa KEY1", "ssh-rsa KEY2"]) :
        Except GoError (GoSlice String)) = .ok sshKeyData := hkeys
    injection h2 with h3
    exact h3.symm
  subst hk
  obtain ⟨h1, h2, h3, h4⟩ := hwin (Or.inl rfl)
  exact ⟨hmem, props, os, hprops, hos, h1, h2, h3, h4⟩

/-- With a key supplied, no run of `Reconcile` records a call of the key generator. -/
theorem Reconcile_supplied_no_keygen (d : Deps) (s : Service) (vmSpec : Spec)
    (h : 1 ≤ vmSpec.SSHKeyData.len) :
    keyGenerations (Service.Reconcile d s (.vm vmSpec)).2 = 0 := by
  have hkeys := resolveSSHKeyData_supplied d vmSpec h
  unfold Service.Reconcile
  cases hsp : generateStorageProfile d vmSpec with
  | error err => simp [hsp, keyGenerations]
  | ok storageProfile =>
    rcases hnic : d.nicGet vmSpec.NICName with ⟨nicValue, nerr⟩
    cases nerr with
    | some err => simp [hsp, hnic, keyGenerations]
    | none =>
      cases nicValue with
      | other => simp [hsp, hnic, keyGenerations]
      | iface nic =>
        cases hname : generateComputerName d vmSpec.Image.OSType with
        | error err => simp [hsp, hnic, hname, hkeys, keyGenerations]
        | ok computerName =>
          cases hcu : s.Client.CreateOrUpdate s.Scope.ResourceGroup vmSpec.Name
            (buildVirtualMachine d s vmSpec storageProfile nic
              (buildSSHPublicKeys d vmSpec.SSHKeyData) computerName) <;>
            simp [hsp, hnic, hname, hkeys, hcu, keyGenerations]

/-- C10: with n >= 1 supplied SSH public keys no call of the key generator is
made, and the public-key list in the instance definition of a recorded upsert,
in the Linux configuration or else in the Windows one, has exactly n entries, in
the supplied order: the i-th entry has the i-th supplied key as `KeyData` and
"/home/" ++ DefaultUserName ++ "/.ssh/authorized_keys" as `Path`. -/
theorem Reconcile_supplied_keys (d : Deps) (s : Service) (vmSpec : Spec)
    (h : 1 ≤ vmSpec.SSHKeyData.len) :
    keyGenerations (Service.Reconcile d s (.vm vmSpec)).2 = 0
    ∧ ∀ g n vm, Event.createOrUpdate g n vm ∈ (Service.Reconcile d s (.vm vmSpec)).2 →
      ∃ props os keyList,
        vm.VirtualMachineProperties = some props ∧ props.OsProfile = some os
        ∧ ((os.LinuxConfiguration = some { SSH := some { PublicKeys := some keyList }
                                           DisablePasswordAuthentication := some true }
              ∧ os.WindowsConfiguration = none)
            ∨ (os.LinuxConfiguration = none
              ∧ os.WindowsConfiguration = some { SSH := some { PublicKeys := some keyList } }))
        ∧ keyList.len = vmSpec.SSHKeyData.len
        ∧ keyList = GoSlice.of (vmSpec.SSHKeyData.toList.map fun key =>
            { Path := some ("/home/" ++ d.DefaultUserName ++ "/.ssh/authorized_keys"),
              KeyData := some key }) := by
  refine ⟨Reconcile_supplied_no_keygen d s vmSpec h, ?_⟩
  intro g n vm hmem
  obtain ⟨sshKeyData, props, os, hkeys, hprops, hos, hwin, hlin⟩ :=
    Reconcile_upsert_osProfile d s vmSpec g n vm hmem
  rw [resolveSSHKeyData_supplied d vmSpec h] at hkeys
  have hk : sshKeyData = vmSpec.SSHKeyData := by
    injection hkeys with h3
    exact h3.symm
  subst hk
  refine ⟨props, os, buildSSHPublicKeys d vmSpec.SSHKeyData, hprops, hos, ?_, ?_,
    buildSSHPublicKeys_eq_map d _⟩
  · by_cases hw : vmSpec.Image.OSType = OSTypeWindows ∨ vmSpec.Image.OSType = OSTypeWindows2022
    · exact Or.inr ⟨(hwin hw).1, (hwin hw).2.1⟩
    · exact Or.inl ⟨(hlin hw).1, (hlin hw).2.1⟩
  · rw [buildSSHPublicKeys_eq_map]
    simp [GoSlice.len, GoSlice.toList]

/-- A VM of a Linux image with two supplied keys. -/
def linuxSpec : Spec :=
  { Name := "vm2", NICName := "nic2", SSHKeyData := GoSlice.of ["ssh-rsa KEY1", "ssh-rsa KEY2"],
    Size := "Default", Image := sampleImage, OSDisk := { OSType := OSTypeLinux } }

/-- Witness of `Reconcile_supplied_keys` at `linuxSpec`: the run records the
upsert and no key generation, and the Linux configuration of the submitted
definition holds the two supplied keys in order. -/
theorem Reconcile_supplied_keys_witness :
    ∃ vm props os,
      (Service.Reconcile sampleDeps sampleService (.vm linuxSpec)).2
        = [Event.nicGet "nic2", Event.createOrUpdate "rg1" "vm2" vm]
      ∧ vm.VirtualMachineProperties = some props ∧ props.OsProfile = some os
      ∧ os.LinuxConfiguration = some
          { SSH := some { PublicKeys := some (GoSlice.of
              [{ Path := some "/home/clouduser/.ssh/authorized_keys", KeyData := some "ssh-rsa KEY1" },
               { Path := some "/home/clouduser/.ssh/authorized_keys",
                 KeyData := some "ssh-rsa KEY2" }]) }
            DisablePasswordAuthentication := some true }
      ∧ keyGenerations (Service.Reconcile sampleDeps sampleService (.vm linuxSpec)).2 = 0 := by
  have htrace : ∃ vm, (Service.Reconcile sampleDeps sampleService (.vm linuxSpec)).2
      = [Event.nicGet "nic2", Event.createOrUpdate "rg1" "vm2" vm] := ⟨_, rfl⟩
  obtain ⟨vm, hvm⟩ := htrace
  obtain ⟨hgen, hup⟩ := Reconcile_supplied_keys sampleDeps sampleService linuxSpec (by decide)
  obtain ⟨props, os, keyList, hprops, hos, hcfg, -, hlist⟩ :=
    hup "rg1" "vm2" vm (by rw [hvm]; simp)
  refine ⟨vm, props, os, hvm, hprops, hos, ?_, hgen⟩
  subst hlist
  rcases hcfg with ⟨hl, -⟩ | ⟨hl, hwc⟩
  · exact hl
  · exfalso
    have hup2 := Reconcile_upsert_osProfile sampleDeps sampleService linuxSpec "rg1" "vm2" vm
      (by rw [hvm]; simp)
    obtain ⟨_, props2, os2, -, hprops2, hos2, -, hlin⟩ := hup2
    have hp : props2 = props := Option.some.inj (hprops2.symm.trans hprops)
    subst hp
    have ho : os2 = os := Option.some.inj (hos2.symm.trans hos)
    subst ho
    have := (hlin (by decide)).1
    rw [hl] at this
    cases this

/-! ## The runs of `Reconcile`, step by step -/

/-- A failure of the storage profile ends `Reconcile` before any call is made. -/
theorem Reconcile_storage_error (d : Deps) (s : Service) (vmSpec : Spec) (err : GoError)
    (hsp : generateStorageProfile d vmSpec = .error err) :
    Service.Reconcile d s (.vm vmSpec) = (some err, []) := by
  simp [Service.Reconcile, hsp]

/-- An error of the network-interface service is returned as it is, after the
storage profile was built. -/
theorem Reconcile_nic_error (d : Deps) (s : Service) (vmSpec : Spec)
    (storageProfile : StorageProfile) (value : NicValue) (err : GoError)
    (hsp : generateStorageProfile d vmSpec = .ok storageProfile)
    (hnic : d.nicGet vmSpec.NICName = (value, some err)) :
    Service.Reconcile d s (.vm vmSpec) = (some err, [Event.nicGet vmSpec.NICName]) := by
  simp [Service.Reconcile, hsp, hnic]

/-- A value of the network-interface service that is no `network.Interface`
ends `Reconcile` with an error. -/
theorem Reconcile_nic_other (d : Deps) (s : Service) (vmSpec : Spec)
    (storageProfile : StorageProfile)
    (hsp : generateStorageProfile d vmSpec = .ok storageProfile)
    (hnic : d.nicGet vmSpec.NICName = (NicValue.other, none)) :
    Service.Reconcile d s (.vm vmSpec)
      = (some (GoError.new "error getting network interface"),
          [Event.nicGet vmSpec.NICName]) := by
  simp [Service.Reconcile, hsp, hnic]

/-- A failure of the key step ends `Reconcile` with the error of that step. -/
theorem Reconcile_key_error (d : Deps) (s : Service) (vmSpec : Spec)
    (storageProfile : StorageProfile) (nic : NetworkInterface) (err : GoError)
    (hsp : generateStorageProfile d vmSpec = .ok storageProfile)
    (hnic : d.nicGet vmSpec.NICName = (NicValue.iface nic, none))
    (hkeys : (resolveSSHKeyData d vmSpec).1 = .error err) :
    Service.Reconcile d s (.vm vmSpec)
      = (some err, Event.nicGet vmSpec.NICName :: (resolveSSHKeyData d vmSpec).2) := by
  simp [Service.Reconcile, hsp, hnic, hkeys]

/-- A failure of the computer name ends `Reconcile` with that error, wrapped. -/
theorem Reconcile_name_error (d : Deps) (s : Service) (vmSpec : Spec)
    (storageProfile : StorageProfile) (nic : NetworkInterface) (sshKeyData : GoSlice String)
    (err : GoError)
    (hsp : generateStorageProfile d vmSpec = .ok storageProfile)
    (hnic : d.nicGet vmSpec.NICName = (NicValue.iface nic, none))
    (hkeys : (resolveSSHKeyData d vmSpec).1 = .ok sshKeyData)
    (hname : generateComputerName d vmSpec.Image.OSType = .error err) :
    Service.Reconcile d s (.vm vmSpec)
      = (some (GoError.wrap err "Failed to generate computer name"),
          Event.nicGet vmSpec.NICName :: (resolveSSHKeyData d vmSpec).2) := by
  simp [Service.Reconcile, hsp, hnic, hkeys, hname]

/-- When every step before it succeeds, `Reconcile` makes the upsert, as the
last call of the run, and returns its error wrapped, or nil. -/
theorem Reconcile_all_ok (d : Deps) (s : Service) (vmSpec : Spec)
    (storageProfile : StorageProfile) (nic : NetworkInterface) (sshKeyData : GoSlice String)
    (computerName : String)
    (hsp : generateStorageProfile d vmSpec = .ok storageProfile)
    (hnic : d.nicGet vmSpec.NICName = (NicValue.iface nic, none))
    (hkeys : (resolveSSHKeyData d vmSpec).1 = .ok sshKeyData)
    (hname : generateComputerName d vmSpec.Image.OSType = .ok computerName) :
    Service.Reconcile d s (.vm vmSpec)
      = (Wrapf (s.Client.CreateOrUpdate s.Scope.ResourceGroup vmSpec.Name
            (buildVirtualMachine d s vmSpec storageProfile nic
              (buildSSHPublicKeys d sshKeyData) computerName)) "cannot create vm",
          Event.nicGet vmSpec.NICName :: ((resolveSSHKeyData d vmSpec).2
            ++ [Event.createOrUpdate s.Scope.ResourceGroup vmSpec.Name
              (buildVirtualMachine d s vmSpec storageProfile nic
                (buildSSHPublicKeys d sshKeyData) computerName)])) := by
  cases hcu : s.Client.CreateOrUpdate s.Scope.ResourceGroup vmSpec.Name
      (buildVirtualMachine d s vmSpec storageProfile nic
        (buildSSHPublicKeys d sshKeyData) computerName) <;>
    simp [Service.Reconcile, hsp, hnic, hkeys, hname, hcu, Wrapf]

/-- The trace of the key step holds one call of the key generator when no key
is supplied, and none otherwise. -/
theorem resolveSSHKeyData_keyGenerations (d : Deps) (vmSpec : Spec) :
    keyGenerations (resolveSSHKeyData d vmSpec).2
      = if vmSpec.SSHKeyData.len = 0 then 1 else 0 := by
  by_cases hlen : vmSpec.SSHKeyData.len = 0
  · cases hgen : d.GenerateKey 2048 with
    | error perr => simp [resolveSSHKeyData, hlen, hgen, keyGenerations]
    | ok privateKey =>
      cases hpub : d.NewPublicKey privateKey.PublicKey <;>
        simp [resolveSSHKeyData, hlen, hgen, hpub, keyGenerations]
  · simp [resolveSSHKeyData, hlen, keyGenerations]

/-- The key step holds no upsert. -/
theorem resolveSSHKeyData_upserts (d : Deps) (vmSpec : Spec) :
    upserts (resolveSSHKeyData d vmSpec).2 = [] := by
  by_cases hlen : vmSpec.SSHKeyData.len = 0
  · cases hgen : d.GenerateKey 2048 with
    | error perr => simp [resolveSSHKeyData, hlen, hgen, upserts]
    | ok privateKey =>
      cases hpub : d.NewPublicKey privateKey.PublicKey <;>
        simp [resolveSSHKeyData, hlen, hgen, hpub, upserts]
  · simp [resolveSSHKeyData, hlen, upserts]

/-- Counting key generations over a trace with a call appended. -/
theorem keyGenerations_append (t u : List Event) :
    keyGenerations (t ++ u) = keyGenerations t + keyGenerations u := by
  induction t with
  | nil => simp [keyGenerations]
  | cons e rest ih =>
    cases e <;> simp [keyGenerations, ih]
    omega

/-- The upserts of a trace with a trace appended. -/
theorem upserts_append (t u : List Event) : upserts (t ++ u) = upserts t ++ upserts u := by
  induction t with
  | nil => simp [upserts]
  | cons e rest ih =>
    cases e <;> simp [upserts, ih]

/-- An upsert is in the trace exactly when it is among its upserts. -/
theorem mem_upserts (t : List Event) (g n : String) (vm : VirtualMachine) :
    (g, n, vm) ∈ upserts t ↔ Event.createOrUpdate g n vm ∈ t := by
  induction t with
  | nil => simp [upserts]
  | cons e rest ih =>
    cases e <;> simp [upserts, ih]

/-- The key step with no key supplied and a generator that succeeds: the one
authorized-keys line of the generated public key, after one call. -/
theorem resolveSSHKeyData_generated (d : Deps) (vmSpec : Spec) (key : RsaPrivateKey)
    (pub : SshPublicKey) (hlen : vmSpec.SSHKeyData.len = 0)
    (hgen : d.GenerateKey 2048 = .ok key) (hpub : d.NewPublicKey key.PublicKey = .ok pub) :
    resolveSSHKeyData d vmSpec
      = (.ok (GoSlice.of [d.MarshalAuthorizedKey pub]), [Event.generateKey 2048]) := by
  simp [resolveSSHKeyData, hlen, hgen, hpub]

/-- The key step with no key supplied fails when the generator or the
derivation of the public key fails. -/
theorem resolveSSHKeyData_failed (d : Deps) (vmSpec : Spec)
    (hlen : vmSpec.SSHKeyData.len = 0)
    (hfail : (∃ err, d.GenerateKey 2048 = .error err)
      ∨ ∃ key err, d.GenerateKey 2048 = .ok key ∧ d.NewPublicKey key.PublicKey = .error err) :
    ∃ err, (resolveSSHKeyData d vmSpec).1 = .error err := by
  rcases hfail with ⟨err, hgen⟩ | ⟨key, err, hgen, hpub⟩
  · exact ⟨GoError.wrap err "Failed to generate private key",
      by simp [resolveSSHKeyData, hlen, hgen]⟩
  · exact ⟨GoError.wrap err "Failed to generate public key",
      by simp [resolveSSHKeyData, hlen, hgen, hpub]⟩

/-- A run that obtained the storage profile and the network interface records
the key generations of the key step. -/
theorem Reconcile_keyGenerations_reached (d : Deps) (s : Service) (vmSpec : Spec)
    (storageProfile : StorageProfile) (nic : NetworkInterface)
    (hsp : generateStorageProfile d vmSpec = .ok storageProfile)
    (hnic : d.nicGet vmSpec.NICName = (NicValue.iface nic, none)) :
    keyGenerations (Service.Reconcile d s (.vm vmSpec)).2
      = keyGenerations (resolveSSHKeyData d vmSpec).2 := by
  cases hkeys : (resolveSSHKeyData d vmSpec).1 with
  | error err =>
    rw [Reconcile_key_error d s vmSpec storageProfile nic err hsp hnic hkeys]
    simp [keyGenerations]
  | ok sshKeyData =>
    cases hname : generateComputerName d vmSpec.Image.OSType with
    | error err =>
      rw [Reconcile_name_error d s vmSpec storageProfile nic sshKeyData err hsp hnic
        hkeys hname]
      simp [keyGenerations]
    | ok computerName =>
      rw [Reconcile_all_ok d s vmSpec storageProfile nic sshKeyData computerName hsp hnic
        hkeys hname]
      simp [keyGenerations, keyGenerations_append]

/-- No run records more key generations than the key step makes. -/
theorem Reconcile_keyGenerations_le (d : Deps) (s : Service) (vmSpec : Spec) :
    keyGenerations (Service.Reconcile d s (.vm vmSpec)).2
      ≤ keyGenerations (resolveSSHKeyData d vmSpec).2 := by
  cases hsp : generateStorageProfile d vmSpec with
  | error err =>
    rw [Reconcile_storage_error d s vmSpec err hsp]
    simp [keyGenerations]
  | ok storageProfile =>
    rcases hnic : d.nicGet vmSpec.NICName with ⟨nicValue, nerr⟩
    cases nerr with
    | some err =>
      rw [Reconcile_nic_error d s vmSpec storageProfile nicValue err hsp hnic]
      simp [keyGenerations]
    | none =>
      cases nicValue with
      | other =>
        rw [Reconcile_nic_other d s vmSpec storageProfile hsp hnic]
        simp [keyGenerations]
      | iface nic =>
        exact Nat.le_of_eq (Reconcile_keyGenerations_reached d s vmSpec storageProfile nic
          hsp hnic)

/-- A run in which a step before the upsert fails returns an error and records
no upsert. -/
theorem Reconcile_no_upsert_of_failure (d : Deps) (s : Service) (vmSpec : Spec)
    (hfail : (∃ err, generateStorageProfile d vmSpec = .error err)
      ∨ (¬ ∃ nic, d.nicGet vmSpec.NICName = (NicValue.iface nic, none))
      ∨ (∃ err, (resolveSSHKeyData d vmSpec).1 = .error err)
      ∨ (∃ err, generateComputerName d vmSpec.Image.OSType = .error err)) :
    (Service.Reconcile d s (.vm vmSpec)).1 ≠ none
      ∧ upserts (Service.Reconcile d s (.vm vmSpec)).2 = [] := by
  cases hsp : generateStorageProfile d vmSpec with
  | error err =>
    rw [Reconcile_storage_error d s vmSpec err hsp]
    simp [upserts]
  | ok storageProfile =>
    rcases hnic : d.nicGet vmSpec.NICName with ⟨nicValue, nerr⟩
    cases nerr with
    | some err =>
      rw [Reconcile_nic_error d s vmSpec storageProfile nicValue err hsp hnic]
      simp [upserts]
    | none =>
      cases nicValue with
      | other =>
        rw [Reconcile_nic_other d s vmSpec storageProfile hsp hnic]
        simp [upserts]
      | iface nic =>
        cases hkeys : (resolveSSHKeyData d vmSpec).1 with
        | error err =>
          rw [Reconcile_key_error d s vmSpec storageProfile nic err hsp hnic hkeys]
          simp [upserts, resolveSSHKeyData_upserts]
        | ok sshKeyData =>
          cases hname : generateComputerName d vmSpec.Image.OSType with
          | error err =>
            rw [Reconcile_name_error d s vmSpec storageProfile nic sshKeyData err hsp hnic
              hkeys hname]
            simp [upserts, resolveSSHKeyData_upserts]
          | ok computerName =>
            exfalso
            rcases hfail with ⟨err, h⟩ | h | ⟨err, h⟩ | ⟨err, h⟩
            · rw [hsp] at h; cases h
            · exact h ⟨nic, hnic⟩
            · rw [hkeys] at h; cases h
            · rw [hname] at h; cases h

/-! ## Theorems: generated keys -/

/-- C11: for a VM spec with no supplied SSH key (a nil or an empty slice) and a
Linux image.  When the key generator and the derivation of the public key
succeed, a run never calls the generator more than once, calls it exactly once
whenever it got as far as the key step (storage profile and network interface
obtained), and the instance definition of a recorded upsert comes from a run
with exactly one call and holds, in its Linux configuration, exactly one
public-key entry, with the authorized-keys line of the generated public key as
`KeyData` and "/home/" ++ DefaultUserName ++ "/.ssh/authorized_keys" as `Path`.
When the generator or the derivation fails, `Reconcile` returns an error and
records no upsert. -/
theorem Reconcile_generated_key (d : Deps) (s : Service) (vmSpec : Spec)
    (hlen : vmSpec.SSHKeyData.len = 0) (hos : vmSpec.Image.OSType = OSTypeLinux) :
    (∀ key pub, d.GenerateKey 2048 = .ok key → d.NewPublicKey key.PublicKey = .ok pub →
      keyGenerations (Service.Reconcile d s (.vm vmSpec)).2 ≤ 1
      ∧ (∀ storageProfile nic, generateStorageProfile d vmSpec = .ok storageProfile →
          d.nicGet vmSpec.NICName = (NicValue.iface nic, none) →
          keyGenerations (Service.Reconcile d s (.vm vmSpec)).2 = 1)
      ∧ ∀ g n vm, Event.createOrUpdate g n vm ∈ (Service.Reconcile d s (.vm vmSpec)).2 →
          keyGenerations (Service.Reconcile d s (.vm vmSpec)).2 = 1
          ∧ ∃ props os,
            vm.VirtualMachineProperties = some props ∧ props.OsProfile = some os
            ∧ os.LinuxConfiguration = some
                { SSH := some { PublicKeys := some (GoSlice.of
                    [{ Path := some ("/home/" ++ d.DefaultUserName ++ "/.ssh/authorized_keys"),
                       KeyData := some (d.MarshalAuthorizedKey pub) }]) }
                  DisablePasswordAuthentication := some true })
    ∧ (((∃ err, d.GenerateKey 2048 = .error err)
          ∨ ∃ key err, d.GenerateKey 2048 = .ok key ∧ d.NewPublicKey key.PublicKey = .error err) →
        (Service.Reconcile d s (.vm vmSpec)).1 ≠ none
        ∧ upserts (Service.Reconcile d s (.vm vmSpec)).2 = []) := by
  have hcount : keyGenerations (resolveSSHKeyData d vmSpec).2 = 1 := by
    rw [resolveSSHKeyData_keyGenerations, if_pos hlen]
  constructor
  · intro key pub hgen hpub
    have hreach : ∀ storageProfile nic, generateStorageProfile d vmSpec = .ok storageProfile →
        d.nicGet vmSpec.NICName = (NicValue.iface nic, none) →
        keyGenerations (Service.Reconcile d s (.vm vmSpec)).2 = 1 := by
      intro storageProfile nic hsp hnic
      rw [Reconcile_keyGenerations_reached d s vmSpec storageProfile nic hsp hnic, hcount]
    refine ⟨?_, hreach, ?_⟩
    · have := Reconcile_keyGenerations_le d s vmSpec
      omega
    · intro g n vm hmem
      obtain ⟨storageProfile, nic, _, _, hsp, hnic, -, -, -, -, -⟩ :=
        Reconcile_upsert d s vmSpec g n vm hmem
      refine ⟨hreach storageProfile nic hsp hnic, ?_⟩
      obtain ⟨sshKeyData, props, os, hkeys, hprops, hosp, -, hlin⟩ :=
        Reconcile_upsert_osProfile d s vmSpec g n vm hmem
      rw [resolveSSHKeyData_generated d vmSpec key pub hlen hgen hpub] at hkeys
      have hk : sshKeyData = GoSlice.of [d.MarshalAuthorizedKey pub] := by
        injection hkeys with h3
        exact h3.symm
      subst hk
      have hnotwin : ¬ (vmSpec.Image.OSType = OSTypeWindows
          ∨ vmSpec.Image.OSType = OSTypeWindows2022) := by
        rw [hos]
        decide
      exact ⟨props, os, hprops, hosp, (hlin hnotwin).1⟩
  · intro hfail
    exact Reconcile_no_upsert_of_failure d s vmSpec
      (Or.inr (Or.inr (Or.inl (resolveSSHKeyData_failed d vmSpec hlen hfail))))

/-- A VM of a Linux image with no supplied key. -/
def generatedKeySpec : Spec :=
  { Name := "vm3", NICName := "nic3", SSHKeyData := GoSlice.nil, Size := "Default",
    Image := sampleImage, OSDisk := { OSType := OSTypeLinux } }

/-- Collaborators as in `sampleDeps`, with a key generator that fails. -/
def failingKeyDeps : Deps :=
  { sampleDeps with GenerateKey := fun _ => .error (GoError.new "no entropy") }

/-- Witness of `Reconcile_generated_key` at `generatedKeySpec`: with the
collaborators of `sampleDeps` the run calls the generator once and submits the
one generated key; with a generator that fails it returns that error, wrapped,
and makes no upsert. -/
theorem Reconcile_generated_key_witness :
    (∃ vm props os,
      (Service.Reconcile sampleDeps sampleService (.vm generatedKeySpec)).2
        = [Event.nicGet "nic3", Event.generateKey 2048, Event.createOrUpdate "rg1" "vm3" vm]
      ∧ keyGenerations (Service.Reconcile sampleDeps sampleService (.vm generatedKeySpec)).2 = 1
      ∧ vm.VirtualMachineProperties = some props ∧ props.OsProfile = some os
      ∧ os.LinuxConfiguration = some
          { SSH := some { PublicKeys := some (GoSlice.of
              [{ Path := some "/home/clouduser/.ssh/authorized_keys",
                 KeyData := some "ssh-rsa AAAA" }]) }
            DisablePasswordAuthentication := some true })
    ∧ (Service.Reconcile failingKeyDeps sampleService (.vm generatedKeySpec)).1 ≠ none
    ∧ upserts (Service.Reconcile failingKeyDeps sampleService (.vm generatedKeySpec)).2 = [] := by
  have htrace : ∃ vm, (Service.Reconcile sampleDeps sampleService (.vm generatedKeySpec)).2
      = [Event.nicGet "nic3", Event.generateKey 2048, Event.createOrUpdate "rg1" "vm3" vm] :=
    ⟨_, rfl⟩
  obtain ⟨vm, hvm⟩ := htrace
  obtain ⟨-, -, hup⟩ := (Reconcile_generated_key sampleDeps sampleService generatedKeySpec
    (by decide) rfl).1 { PublicKey := { N := 33, E := 3 }, D := 7 } { key := { N := 33, E := 3 } }
    rfl rfl
  obtain ⟨hone, props, os, hprops, hosp, hlin⟩ := hup "rg1" "vm3" vm (by rw [hvm]; simp)
  have hfail := (Reconcile_generated_key failingKeyDeps sampleService generatedKeySpec
    (by decide) rfl).2 (Or.inl ⟨GoError.new "no entropy", rfl⟩)
  exact ⟨⟨vm, props, os, hvm, hone, hprops, hosp, hlin⟩, hfail.1, hfail.2⟩

/-! ## Theorems: GPU list -/

/-- The loop that stores the same entry at the indices below `k` of a list of
`n` equal entries replaces the first `k` of them. -/
theorem foldl_set_range {α : Type} (v w : α) (n : Nat) :
    ∀ k, k ≤ n → (List.range k).foldl (fun l i => l.set i v) (List.replicate n w)
      = List.replicate k v ++ List.replicate (n - k) w := by
  intro k
  induction k with
  | zero => intro _; simp
  | succ k ih =>
    intro hk
    rw [List.range_succ, List.foldl_append, ih (by omega)]
    obtain ⟨m, hm⟩ : ∃ m, n - k = m + 1 := ⟨n - k - 1, by omega⟩
    have hm2 : n - (k + 1) = m := by omega
    rw [hm, hm2]
    simp only [List.foldl_cons, List.foldl_nil]
    rw [List.set_append_right _ _ (by simp)]
    have hrep : List.replicate (k + 1) v = List.replicate k v ++ [v] :=
      List.replicate_succ' k v
    rw [hrep]
    simp [List.replicate_succ]

/-- C12: `generateGpuList n` is the nil slice, of length 0, when n <= 0; when
n > 0 it is a slice of exactly n entries, each a non-nil pointer to a GPU whose
assignment is `GpuDefault`; no upper bound on n is enforced (the statement
holds for every integer, the 32-bit ones included). -/
theorem generateGpuList_spec (n : Int) :
    (n ≤ 0 → generateGpuList n = GoSlice.nil ∧ (generateGpuList n).len = 0)
    ∧ (0 < n →
        generateGpuList n
          = GoSlice.of (List.replicate n.toNat (some { Assignment := some GpuDefault }))
        ∧ ((generateGpuList n).len : Int) = n
        ∧ ∀ gpu ∈ (generateGpuList n).toList, gpu = some { Assignment := some GpuDefault }) := by
  constructor
  · intro hn
    simp [generateGpuList, hn, GoSlice.len, GoSlice.toList]
  · intro hn
    have hnot : ¬ n ≤ 0 := by omega
    have heq : generateGpuList n
        = GoSlice.of (List.replicate n.toNat (some { Assignment := some GpuDefault })) := by
      unfold generateGpuList
      rw [if_neg hnot]
      simp only
      rw [foldl_set_range _ _ n.toNat n.toNat (Nat.le_refl _)]
      simp
    refine ⟨heq, ?_, ?_⟩
    · rw [heq]
      simp only [GoSlice.len, GoSlice.toList, List.length_replicate]
      omega
    · intro gpu hgpu
      rw [heq] at hgpu
      exact List.eq_of_mem_replicate hgpu

/-- Witness of `generateGpuList_spec`: the counts 0, -1 and 3 give slices of
length 0, 0 and 3, and the count 2147483647 is not refused. -/
theorem generateGpuList_spec_witness :
    (generateGpuList 0).len = 0 ∧ (generateGpuList (-1)).len = 0
    ∧ ((generateGpuList 3).len : Int) = 3
    ∧ generateGpuList 3 = GoSlice.of
        [some { Assignment := some GpuDefault }, some { Assignment := some GpuDefault },
         some { Assignment := some GpuDefault }]
    ∧ ((generateGpuList 2147483647).len : Int) = 2147483647 :=
  ⟨((generateGpuList_spec 0).1 (by decide)).2, ((generateGpuList_spec (-1)).1 (by decide)).2,
   ((generateGpuList_spec 3).2 (by decide)).2.1, ((generateGpuList_spec 3).2 (by decide)).1,
   ((generateGpuList_spec 2147483647).2 (by decide)).2.1⟩

/-! ## Theorems: computer name -/

/-- An alphanumeric character takes one byte in UTF-8. -/
theorem utf8Size_of_isAlphanum (c : Char) (h : c.isAlphanum = true) : c.utf8Size = 1 := by
  have hle : c.val ≤ 127 := by
    simp only [Char.isAlphanum, Char.isAlpha, Char.isUpper, Char.isLower, Char.isDigit,
      Bool.or_eq_true, Bool.and_eq_true, decide_eq_true_eq] at h
    simp only [UInt32.le_def, BitVec.le_def] at h ⊢
    have e1 : (UInt32.toBitVec 90).toNat = 90 := rfl
    have e2 : (UInt32.toBitVec 122).toNat = 122 := rfl
    have e3 : (UInt32.toBitVec 57).toNat = 57 := rfl
    have e4 : (UInt32.toBitVec 127).toNat = 127 := rfl
    rw [e4]
    rcases h with (⟨_, h⟩ | ⟨_, h⟩) | ⟨_, h⟩
    · rw [e1] at h; omega
    · rw [e2] at h; omega
    · rw [e3] at h; omega
  simp [Char.utf8Size, hle]

/-- A string of alphanumeric characters has as many bytes as characters. -/
theorem utf8ByteSize_of_isAlphanum (r : String) (h : ∀ c ∈ r.data, c.isAlphanum = true) :
    r.utf8ByteSize = r.length := by
  have key : ∀ cs : List Char, (∀ c ∈ cs, c.isAlphanum = true) →
      String.utf8Len cs = cs.length := by
    intro cs
    induction cs with
    | nil => intro _; rfl
    | cons c rest ih =>
      intro hcs
      simp only [String.utf8Len_cons, List.length_cons]
      rw [ih (fun x hx => hcs x (List.mem_cons_of_mem _ hx)),
        utf8Size_of_isAlphanum c (hcs c (List.mem_cons_self _ _))]
  exact key r.data h

/-- The byte length of two strings put together. -/
theorem utf8ByteSize_append (a b : String) :
    (a ++ b).utf8ByteSize = a.utf8ByteSize + b.utf8ByteSize := by
  show String.utf8Len (a ++ b).data = String.utf8Len a.data + String.utf8Len b.data
  rw [String.data_append, String.utf8Len_append]

/-- The body of `generateComputerName` once the prefix with the OS code, five
bytes long, is known: the random source is asked for ten characters. -/
theorem generateComputerName_of_code (d : Deps) (os : OSType) (code : String)
    (hcode : (if os = OSTypeWindows then computerNamePrefix ++ "w"
      else if os = OSTypeWindows2022 then computerNamePrefix ++ "w"
      else if os = OSTypeLinux then computerNamePrefix ++ "l"
      else computerNamePrefix ++ "u") = "moc-" ++ code)
    (hsize : ("moc-" ++ code).utf8ByteSize = 5) :
    (∀ r, d.RandomAlphaNumericString 10 = (r, none) →
      generateComputerName d os = .ok ("moc-" ++ code ++ r))
    ∧ (∀ r err, d.RandomAlphaNumericString 10 = (r, some err) →
      generateComputerName d os = .error err) := by
  have hlt : ((("moc-" ++ code).utf8ByteSize : Nat) : Int) < computerNameLength := by
    rw [hsize]
    decide
  have hten : computerNameLength - ((("moc-" ++ code).utf8ByteSize : Nat) : Int) = 10 := by
    rw [hsize]
    decide
  constructor
  · intro r hr
    unfold generateComputerName
    simp only [hcode, hlt, if_true, hten, hr]
  · intro r err hr
    unfold generateComputerName
    simp only [hcode, hlt, if_true, hten, hr]

/-- The prefix with any of the three OS codes has five bytes and five characters. -/
theorem computerName_code_size : ∀ code : String, code = "w" ∨ code = "l" ∨ code = "u" →
    ("moc-" ++ code).utf8ByteSize = 5 ∧ ("moc-" ++ code).length = 5 := by
  intro code hc
  rcases hc with h | h | h <;> subst h <;> exact ⟨rfl, rfl⟩

/-- The `switch` of `generateComputerName` appends the code of the OS type to
the prefix: "w" for both Windows values, "l" for Linux, "u" otherwise. -/
theorem computerName_code (os : OSType) :
    ∃ code : String, (code = "w" ∨ code = "l" ∨ code = "u")
      ∧ (if os = OSTypeWindows ∨ os = OSTypeWindows2022 then "w"
          else if os = OSTypeLinux then "l" else "u") = code
      ∧ (if os = OSTypeWindows then computerNamePrefix ++ "w"
          else if os = OSTypeWindows2022 then computerNamePrefix ++ "w"
          else if os = OSTypeLinux then computerNamePrefix ++ "l"
          else computerNamePrefix ++ "u") = "moc-" ++ code := by
  by_cases h1 : os = OSTypeWindows
  · exact ⟨"w", Or.inl rfl, by simp [h1], by simp [h1, computerNamePrefix]⟩
  · by_cases h2 : os = OSTypeWindows2022
    · exact ⟨"w", Or.inl rfl, by simp [h2], by simp [h1, h2, computerNamePrefix]⟩
    · by_cases h3 : os = OSTypeLinux
      · exact ⟨"l", Or.inr (Or.inl rfl),
          by rw [if_neg (not_or.mpr ⟨h1, h2⟩), if_pos h3],
          by rw [if_neg h1, if_neg h2, if_pos h3]; rfl⟩
      · exact ⟨"u", Or.inr (Or.inr rfl), by simp [h1, h2, h3],
          by simp [h1, h2, h3, computerNamePrefix]⟩

/-- A computer name that `generateComputerName` returns is the prefix, the
code of the OS type and the answer of the random source to a request of ten. -/
theorem generateComputerName_ok (d : Deps) (os : OSType) (computerName : String)
    (h : generateComputerName d os = .ok computerName) :
    ∃ r, d.RandomAlphaNumericString 10 = (r, none)
      ∧ computerName = "moc-" ++ (if os = OSTypeWindows ∨ os = OSTypeWindows2022 then "w"
          else if os = OSTypeLinux then "l" else "u") ++ r := by
  obtain ⟨code, hc, hsel, hpre⟩ := computerName_code os
  obtain ⟨hok, herr⟩ := generateComputerName_of_code d os code hpre
    (computerName_code_size code hc).1
  rw [hsel]
  rcases hr : d.RandomAlphaNumericString 10 with ⟨r, rerr⟩
  cases rerr with
  | some err =>
    rw [herr r err hr] at h
    cases h
  | none =>
    rw [hok r hr] at h
    injection h with h
    exact ⟨r, rfl, h.symm⟩

/-- C13: for every OS type, with c the code "w" for Windows and Windows2022, "l"
for Linux and "u" for every other value.  The prefix with the code is shorter
than the target length, so the branch without padding is never taken and the
random source is asked for exactly 10 characters.  When it answers with r,
`generateComputerName` returns "moc-" ++ c ++ r, which has exactly 15
characters, and 15 bytes, when r has 10 alphanumeric characters.  When it
fails, `generateComputerName` fails with the error of the source. -/
theorem generateComputerName_spec (d : Deps) (os : OSType) :
    ((("moc-" ++ (if os = OSTypeWindows ∨ os = OSTypeWindows2022 then "w"
        else if os = OSTypeLinux then "l" else "u")).utf8ByteSize : Int) < computerNameLength)
    ∧ (∀ r, d.RandomAlphaNumericString 10 = (r, none) →
        generateComputerName d os
          = .ok ("moc-" ++ (if os = OSTypeWindows ∨ os = OSTypeWindows2022 then "w"
              else if os = OSTypeLinux then "l" else "u") ++ r)
        ∧ (r.length = 10 → (∀ ch ∈ r.data, ch.isAlphanum = true) →
            ("moc-" ++ (if os = OSTypeWindows ∨ os = OSTypeWindows2022 then "w"
              else if os = OSTypeLinux then "l" else "u") ++ r).length = 15
            ∧ ("moc-" ++ (if os = OSTypeWindows ∨ os = OSTypeWindows2022 then "w"
              else if os = OSTypeLinux then "l" else "u") ++ r).utf8ByteSize = 15))
    ∧ (∀ r err, d.RandomAlphaNumericString 10 = (r, some err) →
        generateComputerName d os = .error err) := by
  obtain ⟨code, hc, hsel, hpre⟩ := computerName_code os
  have hsize := computerName_code_size
  rw [hsel]
  obtain ⟨hbytes, hchars⟩ := hsize code hc
  obtain ⟨hok, herr⟩ := generateComputerName_of_code d os code hpre hbytes
  refine ⟨?_, ?_, herr⟩
  · rw [hbytes]
    decide
  · intro r hr
    refine ⟨hok r hr, ?_⟩
    intro hlen halnum
    constructor
    · rw [String.length_append, hchars, hlen]
    · rw [utf8ByteSize_append, hbytes, utf8ByteSize_of_isAlphanum r halnum, hlen]

/-- Collaborators as in `sampleDeps`, with a random source that fails. -/
def failingRandomDeps : Deps :=
  { sampleDeps with RandomAlphaNumericString := fun _ => ("", some (GoError.new "no entropy")) }

/-- Witness of `generateComputerName_spec`: the names for Windows, Windows2022,
Linux and an unknown OS type with the random answer `ab12cd34ef`, each of 15
characters, and the failure of the random source handed on. -/
theorem generateComputerName_spec_witness :
    generateComputerName sampleDeps OSTypeWindows = .ok "moc-wab12cd34ef"
    ∧ generateComputerName sampleDeps OSTypeWindows2022 = .ok "moc-wab12cd34ef"
    ∧ generateComputerName sampleDeps OSTypeLinux = .ok "moc-lab12cd34ef"
    ∧ generateComputerName sampleDeps "Solaris" = .ok "moc-uab12cd34ef"
    ∧ ("moc-uab12cd34ef" : String).length = 15
    ∧ generateComputerName failingRandomDeps OSTypeLinux = .error (GoError.new "no entropy") :=
  ⟨((generateComputerName_spec sampleDeps OSTypeWindows).2.1 "ab12cd34ef" rfl).1,
   ((generateComputerName_spec sampleDeps OSTypeWindows2022).2.1 "ab12cd34ef" rfl).1,
   ((generateComputerName_spec sampleDeps OSTypeLinux).2.1 "ab12cd34ef" rfl).1,
   ((generateComputerName_spec sampleDeps "Solaris").2.1 "ab12cd34ef" rfl).1,
   (((generateComputerName_spec sampleDeps "Solaris").2.1 "ab12cd34ef" rfl).2 rfl
      (by decide)).1,
   (generateComputerName_spec failingRandomDeps OSTypeLinux).2.2 "" (GoError.new "no entropy")
      rfl⟩

/-! ## Theorems: the upsert -/

/-- The storage profile fails exactly as image resolution does, with the error wrapped. -/
theorem generateStorageProfile_error (d : Deps) (vmSpec : Spec) (err : GoError)
    (h : generateImageReference vmSpec.Image = .error err) :
    generateStorageProfile d vmSpec
      = .error (GoError.wrap err "error getting image reference") := by
  simp [generateStorageProfile, h]

/-- The storage profile built from a resolved image reference. -/
theorem generateStorageProfile_ok (d : Deps) (vmSpec : Spec) (imageRef : ImageReference)
    (h : generateImageReference vmSpec.Image = .ok imageRef) :
    generateStorageProfile d vmSpec
      = .ok { OsDisk := some { Vhd := some { URI := some (d.GenerateOSDiskName vmSpec.Name) } }
              DataDisks := some (GoSlice.of [])
              ImageReference := some imageRef
              VmConfigContainerName := some vmSpec.StorageContainer } := by
  simp [generateStorageProfile, h]

/-- The upserts of a run in which every step before the upsert succeeded: the
one call, keyed by resource group and VM name. -/
theorem Reconcile_upserts_all_ok (d : Deps) (s : Service) (vmSpec : Spec)
    (storageProfile : StorageProfile) (nic : NetworkInterface) (sshKeyData : GoSlice String)
    (computerName : String)
    (hsp : generateStorageProfile d vmSpec = .ok storageProfile)
    (hnic : d.nicGet vmSpec.NICName = (NicValue.iface nic, none))
    (hkeys : (resolveSSHKeyData d vmSpec).1 = .ok sshKeyData)
    (hname : generateComputerName d vmSpec.Image.OSType = .ok computerName) :
    upserts (Service.Reconcile d s (.vm vmSpec)).2
      = [(s.Scope.ResourceGroup, vmSpec.Name,
          buildVirtualMachine d s vmSpec storageProfile nic
            (buildSSHPublicKeys d sshKeyData) computerName)] := by
  rw [Reconcile_all_ok d s vmSpec storageProfile nic sshKeyData computerName hsp hnic
    hkeys hname]
  simp [upserts, upserts_append, resolveSSHKeyData_upserts]

/-- Every run is of one of two kinds: it records no upsert and returns an error
because a step failed, or every step before the upsert succeeded. -/
theorem Reconcile_cases (d : Deps) (s : Service) (vmSpec : Spec) :
    ((Service.Reconcile d s (.vm vmSpec)).1 ≠ none
        ∧ upserts (Service.Reconcile d s (.vm vmSpec)).2 = [])
    ∨ ∃ storageProfile nic sshKeyData computerName,
        generateStorageProfile d vmSpec = .ok storageProfile
        ∧ d.nicGet vmSpec.NICName = (NicValue.iface nic, none)
        ∧ (resolveSSHKeyData d vmSpec).1 = .ok sshKeyData
        ∧ generateComputerName d vmSpec.Image.OSType = .ok computerName := by
  cases hsp : generateStorageProfile d vmSpec with
  | error err =>
    exact Or.inl (Reconcile_no_upsert_of_failure d s vmSpec (Or.inl ⟨err, hsp⟩))
  | ok storageProfile =>
    by_cases hnic : ∃ nic, d.nicGet vmSpec.NICName = (NicValue.iface nic, none)
    · obtain ⟨nic, hnic⟩ := hnic
      cases hkeys : (resolveSSHKeyData d vmSpec).1 with
      | error err =>
        exact Or.inl (Reconcile_no_upsert_of_failure d s vmSpec
          (Or.inr (Or.inr (Or.inl ⟨err, hkeys⟩))))
      | ok sshKeyData =>
        cases hname : generateComputerName d vmSpec.Image.OSType with
        | error err =>
          exact Or.inl (Reconcile_no_upsert_of_failure d s vmSpec
            (Or.inr (Or.inr (Or.inr ⟨err, hname⟩))))
        | ok computerName =>
          exact Or.inr ⟨storageProfile, nic, sshKeyData, computerName, rfl, hnic, rfl, rfl⟩
    · exact Or.inl (Reconcile_no_upsert_of_failure d s vmSpec (Or.inr (Or.inl hnic)))

/-- C14: `Reconcile` makes at most one `CreateOrUpdate` call, and a call it
makes is keyed by the resource group of the scope and the VM name of the spec.
When image resolution, the retrieval of the network interface, the key step or
the computer name fails, it returns a non-nil error and makes no call.  When
all of them succeed it makes exactly one call, and returns nil when that call
succeeds and otherwise the error of the provider wrapped with "cannot create
vm". -/
theorem Reconcile_single_upsert (d : Deps) (s : Service) (vmSpec : Spec) :
    (upserts (Service.Reconcile d s (.vm vmSpec)).2).length ≤ 1
    ∧ (∀ g n vm, Event.createOrUpdate g n vm ∈ (Service.Reconcile d s (.vm vmSpec)).2 →
        g = s.Scope.ResourceGroup ∧ n = vmSpec.Name)
    ∧ (((∃ err, generateImageReference vmSpec.Image = .error err)
          ∨ (¬ ∃ nic, d.nicGet vmSpec.NICName = (NicValue.iface nic, none))
          ∨ (∃ err, (resolveSSHKeyData d vmSpec).1 = .error err)
          ∨ (∃ err, generateComputerName d vmSpec.Image.OSType = .error err)) →
        (Service.Reconcile d s (.vm vmSpec)).1 ≠ none
        ∧ upserts (Service.Reconcile d s (.vm vmSpec)).2 = [])
    ∧ (∀ imageRef nic sshKeyData computerName,
        generateImageReference vmSpec.Image = .ok imageRef →
        d.nicGet vmSpec.NICName = (NicValue.iface nic, none) →
        (resolveSSHKeyData d vmSpec).1 = .ok sshKeyData →
        generateComputerName d vmSpec.Image.OSType = .ok computerName →
        ∃ vm, upserts (Service.Reconcile d s (.vm vmSpec)).2
            = [(s.Scope.ResourceGroup, vmSpec.Name, vm)]
          ∧ (s.Client.CreateOrUpdate s.Scope.ResourceGroup vmSpec.Name vm = none →
              (Service.Reconcile d s (.vm vmSpec)).1 = none)
          ∧ (∀ err, s.Client.CreateOrUpdate s.Scope.ResourceGroup vmSpec.Name vm = some err →
              (Service.Reconcile d s (.vm vmSpec)).1
                = some (GoError.wrap err "cannot create vm"))) := by
  refine ⟨?_, ?_, ?_, ?_⟩
  · rcases Reconcile_cases d s vmSpec with ⟨-, hnone⟩ | ⟨sp, nic, keys, name, hsp, hnic, hk, hn⟩
    · simp [hnone]
    · simp [Reconcile_upserts_all_ok d s vmSpec sp nic keys name hsp hnic hk hn]
  · intro g n vm hmem
    obtain ⟨_, _, _, _, -, -, -, -, hg, hn, -⟩ := Reconcile_upsert d s vmSpec g n vm hmem
    exact ⟨hg, hn⟩
  · intro hfail
    apply Reconcile_no_upsert_of_failure d s vmSpec
    rcases hfail with ⟨err, h⟩ | h | h | h
    · exact Or.inl ⟨_, generateStorageProfile_error d vmSpec err h⟩
    · exact Or.inr (Or.inl h)
    · exact Or.inr (Or.inr (Or.inl h))
    · exact Or.inr (Or.inr (Or.inr h))
  · intro imageRef nic sshKeyData computerName himg hnic hkeys hname
    have hsp := generateStorageProfile_ok d vmSpec imageRef himg
    refine ⟨_, Reconcile_upserts_all_ok d s vmSpec _ nic sshKeyData computerName hsp hnic
      hkeys hname, ?_, ?_⟩
    · intro hcu
      rw [Reconcile_all_ok d s vmSpec _ nic sshKeyData computerName hsp hnic hkeys hname, hcu]
      rfl
    · intro err hcu
      rw [Reconcile_all_ok d s vmSpec _ nic sshKeyData computerName hsp hnic hkeys hname, hcu]
      rfl

/-- Witness of `Reconcile_single_upsert` at `linuxSpec`: with a client that
succeeds the run makes one upsert and returns nil; with a client that fails
with `boom` it returns `boom` wrapped with "cannot create vm"; with a random
source that fails no upsert is made. -/
theorem Reconcile_single_upsert_witness :
    ((Service.Reconcile sampleDeps sampleService (.vm linuxSpec)).1 = none
      ∧ (upserts (Service.Reconcile sampleDeps sampleService (.vm linuxSpec)).2).length = 1)
    ∧ (Service.Reconcile sampleDeps { sampleService with Client := failingClient }
        (.vm linuxSpec)).1 = some (GoError.wrap (GoError.new "boom") "cannot create vm")
    ∧ ((Service.Reconcile failingRandomDeps sampleService (.vm linuxSpec)).1 ≠ none
      ∧ upserts (Service.Reconcile failingRandomDeps sampleService (.vm linuxSpec)).2 = []) := by
  refine ⟨?_, ?_, ?_⟩
  · obtain ⟨vm, hup, hnil, -⟩ :=
      (Reconcile_single_upsert sampleDeps sampleService linuxSpec).2.2.2
        { Name := some "img1", Version := some "1.0.0" } { Name := some "nic2" }
        (GoSlice.of ["ssh-rsa KEY1", "ssh-rsa KEY2"]) "moc-lab12cd34ef" rfl rfl rfl rfl
    exact ⟨hnil rfl, by rw [hup]; rfl⟩
  · obtain ⟨vm, -, -, herr⟩ :=
      (Reconcile_single_upsert sampleDeps { sampleService with Client := failingClient }
        linuxSpec).2.2.2
        { Name := some "img1", Version := some "1.0.0" } { Name := some "nic2" }
        (GoSlice.of ["ssh-rsa KEY1", "ssh-rsa KEY2"]) "moc-lab12cd34ef" rfl rfl rfl rfl
    exact herr (GoError.new "boom") rfl
  · exact (Reconcile_single_upsert failingRandomDeps sampleService linuxSpec).2.2.1
      (Or.inr (Or.inr (Or.inr ⟨GoError.new "no entropy", rfl⟩)))

/-! ## Theorems: the order of the steps -/

/-- Collaborators as in `sampleDeps`, with a network-interface service that
fails with the error `nic not found`. -/
def failingNicDeps : Deps :=
  { sampleDeps with nicGet := fun _ => (NicValue.other, some (GoError.new "nic not found")) }

/-- A VM whose image descriptor has no name. -/
def namelessImageSpec : Spec := { linuxSpec with Image := { OSType := OSTypeLinux } }

/-- C15 as stated fails: the network-interface service fails with `nic not
found`, the image descriptor has no name, and `Reconcile` returns the wrapped
error of image resolution, without having called the network-interface
service. -/
theorem Reconcile_nic_first_counterexample :
    failingNicDeps.nicGet namelessImageSpec.NICName
        = (NicValue.other, some (GoError.new "nic not found"))
    ∧ Service.Reconcile failingNicDeps sampleService (.vm namelessImageSpec)
        = (some (GoError.wrap (GoError.new "Missing ImageReference")
            "error getting image reference"), [])
    ∧ (Service.Reconcile failingNicDeps sampleService (.vm namelessImageSpec)).1
        ≠ some (GoError.new "nic not found") := by
  decide

/-- C15, amended: when the image descriptor resolves and the network-interface
service fails with the error e, `Reconcile` returns exactly e, not wrapped,
whatever the other fields of the spec are; the network interface is asked for
after image resolution and before the key step and the computer name, so the
run records the call of the network-interface service and nothing else.  When
image resolution fails with the error err, `Reconcile` returns err wrapped
with "error getting image reference" and records no call at all, so the
network-interface service is not called, whatever it would have answered. -/
theorem Reconcile_nic_error_unwrapped (d : Deps) (s : Service) (vmSpec : Spec) :
    (∀ (imageRef : ImageReference) (value : NicValue) (e : GoError),
      generateImageReference vmSpec.Image = .ok imageRef →
      d.nicGet vmSpec.NICName = (value, some e) →
      Service.Reconcile d s (.vm vmSpec) = (some e, [Event.nicGet vmSpec.NICName]))
    ∧ (∀ err : GoError, generateImageReference vmSpec.Image = .error err →
      Service.Reconcile d s (.vm vmSpec)
        = (some (GoError.wrap err "error getting image reference"), [])) := by
  constructor
  · intro imageRef value e himg hnic
    exact Reconcile_nic_error d s vmSpec _ value e
      (generateStorageProfile_ok d vmSpec imageRef himg) hnic
  · intro err himg
    exact Reconcile_storage_error d s vmSpec _ (generateStorageProfile_error d vmSpec err himg)

/-- Witness of `Reconcile_nic_error_unwrapped`, with a network-interface service
that fails.  At `generatedKeySpec` the image resolves: the error of the service
comes back as it is and no key is generated.  At `namelessImageSpec` image
resolution fails: its error comes back wrapped and the service is not called. -/
theorem Reconcile_nic_error_unwrapped_witness :
    (Service.Reconcile failingNicDeps sampleService (.vm generatedKeySpec)
      = (some (GoError.new "nic not found"), [Event.nicGet "nic3"]))
    ∧ (Service.Reconcile failingNicDeps sampleService (.vm namelessImageSpec)
      = (some (GoError.wrap (GoError.new "Missing ImageReference")
          "error getting image reference"), [])) :=
  ⟨(Reconcile_nic_error_unwrapped failingNicDeps sampleService generatedKeySpec).1
      { Name := some "img1", Version := some "1.0.0" } NicValue.other
      (GoError.new "nic not found") rfl rfl,
   (Reconcile_nic_error_unwrapped failingNicDeps sampleService namelessImageSpec).2
      (GoError.new "Missing ImageReference") rfl⟩

/-! ## Theorems: availability set and placement group -/

/-- The availability-set and placement-group references of the instance
definition that `buildVirtualMachine` returns. -/
theorem buildVirtualMachine_profiles (d : Deps) (s : Service) (vmSpec : Spec)
    (storageProfile : StorageProfile) (nic : NetworkInterface)
    (sshPublicKeys : GoSlice SSHPublicKey) (computerName : String) :
    ∃ props,
      (buildVirtualMachine d s vmSpec storageProfile nic sshPublicKeys
        computerName).VirtualMachineProperties = some props
      ∧ props.AvailabilitySetProfile
          = (if vmSpec.AvailabilitySetName ≠ "" then
              some { Name := some vmSpec.AvailabilitySetName
                     GroupName := some s.Scope.ResourceGroup }
            else none)
      ∧ props.PlacementGroupProfile
          = (if vmSpec.PlacementGroupName ≠ "" then
              some { Name := some vmSpec.PlacementGroupName
                     GroupName := some s.Scope.ResourceGroup }
            else none) := by
  unfold buildVirtualMachine
  refine ⟨_, rfl, ?_, ?_⟩ <;>
    by_cases ha : vmSpec.AvailabilitySetName = "" <;>
    by_cases hp : vmSpec.PlacementGroupName = "" <;>
    simp [ha, hp]

/-- C16: the instance definition of a recorded upsert has an availability-set
reference exactly when `AvailabilitySetName` is not empty, and then its name is
`AvailabilitySetName` and its group the resource group of the scope; it has a
placement-group reference exactly when `PlacementGroupName` is not empty, with
that name and the same group.  Each of the two is fixed by its own name alone. -/
theorem Reconcile_availability_placement (d : Deps) (s : Service) (vmSpec : Spec)
    (g n : String) (vm : VirtualMachine)
    (h : Event.createOrUpdate g n vm ∈ (Service.Reconcile d s (.vm vmSpec)).2) :
    ∃ props, vm.VirtualMachineProperties = some props
      ∧ (props.AvailabilitySetProfile ≠ none ↔ vmSpec.AvailabilitySetName ≠ "")
      ∧ (vmSpec.AvailabilitySetName ≠ "" →
          props.AvailabilitySetProfile
            = some { Name := some vmSpec.AvailabilitySetName
                     GroupName := some s.Scope.ResourceGroup })
      ∧ (props.PlacementGroupProfile ≠ none ↔ vmSpec.PlacementGroupName ≠ "")
      ∧ (vmSpec.PlacementGroupName ≠ "" →
          props.PlacementGroupProfile
            = some { Name := some vmSpec.PlacementGroupName
                     GroupName := some s.Scope.ResourceGroup }) := by
  obtain ⟨storageProfile, nic, sshKeyData, computerName, -, -, -, -, -, -, hvm⟩ :=
    Reconcile_upsert d s vmSpec g n vm h
  obtain ⟨props, hprops, hav, hpl⟩ := buildVirtualMachine_profiles d s vmSpec storageProfile
    nic (buildSSHPublicKeys d sshKeyData) computerName
  subst hvm
  refine ⟨props, hprops, ?_, ?_, ?_, ?_⟩
  · rw [hav]
    by_cases ha : vmSpec.AvailabilitySetName = "" <;> simp [ha]
  · intro ha
    rw [hav, if_pos ha]
  · rw [hpl]
    by_cases hp : vmSpec.PlacementGroupName = "" <;> simp [hp]
  · intro hp
    rw [hpl, if_pos hp]

/-- A VM of a Linux image in the availability set `as1` and in no placement group. -/
def availabilitySetSpec : Spec :=
  { linuxSpec with Name := "vm4", NICName := "nic4", AvailabilitySetName := "as1" }

/-- Witness of `Reconcile_availability_placement` at `availabilitySetSpec`: the
submitted definition refers to the availability set `as1` in the resource
group `rg1` and to no placement group. -/
theorem Reconcile_availability_placement_witness :
    ∃ vm props,
      (Service.Reconcile sampleDeps sampleService (.vm availabilitySetSpec)).2
        = [Event.nicGet "nic4", Event.createOrUpdate "rg1" "vm4" vm]
      ∧ vm.VirtualMachineProperties = some props
      ∧ props.AvailabilitySetProfile = some { Name := some "as1", GroupName := some "rg1" }
      ∧ props.PlacementGroupProfile = none := by
  have htrace : ∃ vm, (Service.Reconcile sampleDeps sampleService (.vm availabilitySetSpec)).2
      = [Event.nicGet "nic4", Event.createOrUpdate "rg1" "vm4" vm] := ⟨_, rfl⟩
  obtain ⟨vm, hvm⟩ := htrace
  obtain ⟨props, hprops, -, hav, hpl, -⟩ :=
    Reconcile_availability_placement sampleDeps sampleService availabilitySetSpec "rg1" "vm4" vm
      (by rw [hvm]; simp)
  refine ⟨vm, props, hvm, hprops, hav (by decide), ?_⟩
  by_contra hne
  exact (hpl.mp hne) rfl

/-! ## Theorems: when image resolution succeeds -/

/-- C17: `generateImageReference` succeeds exactly when the name is present
and the explicit ID or the version is present.  Subscription, resource group,
gallery, publisher, offer and SKU have no part in it: two descriptors with the
same name, explicit ID and version both resolve or both fail. -/
theorem generateImageReference_succeeds_iff (image : Image) :
    ((∃ imageRef, generateImageReference image = .ok imageRef)
      ↔ (image.Name ≠ none ∧ (image.ID ≠ none ∨ image.Version ≠ none)))
    ∧ (∀ other : Image, other.Name = image.Name → other.ID = image.ID →
        other.Version = image.Version →
        ((∃ imageRef, generateImageReference other = .ok imageRef)
          ↔ (∃ imageRef, generateImageReference image = .ok imageRef))) := by
  have key : ∀ img : Image, (∃ imageRef, generateImageReference img = .ok imageRef)
      ↔ (img.Name ≠ none ∧ (img.ID ≠ none ∨ img.Version ≠ none)) := by
    intro img
    obtain ⟨pub, offer, sku, id, sub, rg, gal, name, ver, os⟩ := img
    cases name <;> cases id <;> cases ver <;> cases sub <;> cases rg <;> cases gal <;>
      simp [generateImageReference, generateImageID, marketplaceReference]
  refine ⟨key image, ?_⟩
  intro other hname hid hver
  rw [key other, key image, hname, hid, hver]

/-- Witness of `generateImageReference_succeeds_iff`: a name with a version
resolves although nothing else is set, and a descriptor with everything but
the explicit ID and the version does not. -/
theorem generateImageReference_succeeds_iff_witness :
    (∃ imageRef, generateImageReference sampleImage = .ok imageRef)
    ∧ ¬ (∃ imageRef, generateImageReference
        { Publisher := some "pub", Offer := some "offer", SKU := some "sku",
          SubscriptionID := some "sub1", ResourceGroup := some "rg1", Gallery := some "gal1",
          Name := some "img1" } = .ok imageRef) :=
  ⟨(generateImageReference_succeeds_iff sampleImage).1.mpr (by decide),
   fun h => absurd ((generateImageReference_succeeds_iff _).1.mp h) (by decide)⟩

/-- C19: under the guard of `generateImageReference`, that is with
subscription, resource group, gallery, name and version all present,
`generateImageID` succeeds, so none of its five error branches is reached from
there; and an error that `generateImageReference` returns is the missing-name
error or the missing-fields error of the marketplace tail. -/
theorem generateImageID_total_under_guard (image : Image) :
    ((image.SubscriptionID.isSome && image.ResourceGroup.isSome && image.Gallery.isSome
        && image.Name.isSome && image.Version.isSome) = true →
      ∃ imageID, generateImageID image = .ok imageID)
    ∧ (∀ err, generateImageReference image = .error err →
        err = GoError.new "Missing ImageReference"
        ∨ ∃ imageRef, err = GoError.errorf
            "Image reference cannot be generated, as fields are missing: %+v" imageRef) := by
  obtain ⟨pub, offer, sku, id, sub, rg, gal, name, ver, os⟩ := image
  constructor
  · intro hguard
    cases name <;> cases ver <;> cases sub <;> cases rg <;> cases gal <;>
      simp [generateImageID] at hguard ⊢
  · intro err herr
    cases name <;> cases id <;> cases ver <;> cases sub <;> cases rg <;> cases gal <;>
      simp [generateImageReference, generateImageID, marketplaceReference] at herr <;>
      first
        | exact Or.inl herr.symm
        | exact Or.inr ⟨_, herr.symm⟩

/-- Witness of `generateImageID_total_under_guard`: the ID of a complete
gallery tuple, and the two errors of `generateImageReference`. -/
theorem generateImageID_total_under_guard_witness :
    (∃ imageID, generateImageID
        { SubscriptionID := some "sub1", ResourceGroup := some "rg1", Gallery := some "gal1",
          Name := some "img1", Version := some "1.0.0" } = .ok imageID)
    ∧ (GoError.new "Missing ImageReference" = GoError.new "Missing ImageReference"
      ∨ ∃ imageRef, GoError.new "Missing ImageReference" = GoError.errorf
          "Image reference cannot be generated, as fields are missing: %+v" imageRef)
    ∧ (GoError.errorf "Image reference cannot be generated, as fields are missing: %+v"
          { Name := some "img1", Publisher := some "pub" }
        = GoError.new "Missing ImageReference"
      ∨ ∃ imageRef, GoError.errorf
          "Image reference cannot be generated, as fields are missing: %+v"
          { Name := some "img1", Publisher := some "pub" }
            = GoError.errorf
              "Image reference cannot be generated, as fields are missing: %+v" imageRef) :=
  ⟨(generateImageID_total_under_guard _).1 rfl,
   (generateImageID_total_under_guard { SubscriptionID := some "sub1" }).2 _ rfl,
   (generateImageID_total_under_guard { Publisher := some "pub", Name := some "img1" }).2 _ rfl⟩

/-! ## Theorems: the OS tag and the OS type of the image -/

/-- A VM whose image is a Windows image and whose OS disk is tagged Linux. -/
def mixedSpec : Spec := { windowsSpec with OSDisk := { OSType := OSTypeLinux } }

/-- What the OS profile of a recorded upsert takes from the two OS types of the
spec: the tag from the OS disk; the computer name and the kind of credential
block from the image. -/
theorem Reconcile_upsert_osTypes (d : Deps) (s : Service) (vmSpec : Spec)
    (g n : String) (vm : VirtualMachine)
    (h : Event.createOrUpdate g n vm ∈ (Service.Reconcile d s (.vm vmSpec)).2) :
    ∃ props os r,
      vm.VirtualMachineProperties = some props ∧ props.OsProfile = some os
      ∧ os.OsType = vmSpec.OSDisk.OSType
      ∧ d.RandomAlphaNumericString 10 = (r, none)
      ∧ os.ComputerName = some ("moc-"
          ++ (if vmSpec.Image.OSType = OSTypeWindows ∨ vmSpec.Image.OSType = OSTypeWindows2022
              then "w" else if vmSpec.Image.OSType = OSTypeLinux then "l" else "u") ++ r)
      ∧ (os.WindowsConfiguration ≠ none
          ↔ (vmSpec.Image.OSType = OSTypeWindows ∨ vmSpec.Image.OSType = OSTypeWindows2022))
      ∧ (os.LinuxConfiguration ≠ none
          ↔ ¬ (vmSpec.Image.OSType = OSTypeWindows ∨ vmSpec.Image.OSType = OSTypeWindows2022))
      ∧ (os.AdminUsername = some "Administrator"
          ∨ ¬ (vmSpec.Image.OSType = OSTypeWindows
            ∨ vmSpec.Image.OSType = OSTypeWindows2022)) := by
  obtain ⟨storageProfile, nic, sshKeyData, computerName, -, -, -, hname, -, -, hvm⟩ :=
    Reconcile_upsert d s vmSpec g n vm h
  obtain ⟨props, hprops, hos⟩ := buildVirtualMachine_osProfile d s vmSpec storageProfile nic
    (buildSSHPublicKeys d sshKeyData) computerName
  obtain ⟨r, hr, hcn⟩ := generateComputerName_ok d vmSpec.Image.OSType computerName hname
  subst hvm
  refine ⟨props, _, r, hprops, hos, ?_, hr, ?_, ?_, ?_, ?_⟩
  · by_cases hw : vmSpec.Image.OSType = OSTypeWindows ∨ vmSpec.Image.OSType = OSTypeWindows2022
    · rw [if_pos hw]
    · rw [if_neg hw]
  · rw [← hcn]
    by_cases hw : vmSpec.Image.OSType = OSTypeWindows ∨ vmSpec.Image.OSType = OSTypeWindows2022
    · rw [if_pos hw]
    · rw [if_neg hw]
  · by_cases hw : vmSpec.Image.OSType = OSTypeWindows ∨ vmSpec.Image.OSType = OSTypeWindows2022
    · rw [if_pos hw]
      simp [hw]
    · rw [if_neg hw]
      simp [hw]
  · by_cases hw : vmSpec.Image.OSType = OSTypeWindows ∨ vmSpec.Image.OSType = OSTypeWindows2022
    · rw [if_pos hw]
      simp [hw]
    · rw [if_neg hw]
      simp [hw]
  · by_cases hw : vmSpec.Image.OSType = OSTypeWindows ∨ vmSpec.Image.OSType = OSTypeWindows2022
    · rw [if_pos hw]
      exact Or.inl rfl
    · exact Or.inr hw

/-- C18: in the instance definition of a recorded upsert the OS tag `OsType`
of the OS profile is `OSDisk.OSType` of the spec, whatever `Image.OSType` is,
while the code in the computer name and the choice between the Windows and the
Linux credential block follow `Image.OSType` alone.  So some spec, with
`Image.OSType` Windows and `OSDisk.OSType` Linux, gets an instance definition
tagged Linux that carries the Windows credential block, the Administrator
identity and a computer name that starts with "moc-w". -/
theorem Reconcile_osType_tag :
    (∀ (d : Deps) (s : Service) (vmSpec : Spec) (g n : String) (vm : VirtualMachine),
      Event.createOrUpdate g n vm ∈ (Service.Reconcile d s (.vm vmSpec)).2 →
      ∃ props os r,
        vm.VirtualMachineProperties = some props ∧ props.OsProfile = some os
        ∧ os.OsType = vmSpec.OSDisk.OSType
        ∧ d.RandomAlphaNumericString 10 = (r, none)
        ∧ os.ComputerName = some ("moc-"
            ++ (if vmSpec.Image.OSType = OSTypeWindows ∨ vmSpec.Image.OSType = OSTypeWindows2022
                then "w" else if vmSpec.Image.OSType = OSTypeLinux then "l" else "u") ++ r)
        ∧ (os.WindowsConfiguration ≠ none
            ↔ (vmSpec.Image.OSType = OSTypeWindows ∨ vmSpec.Image.OSType = OSTypeWindows2022))
        ∧ (os.LinuxConfiguration ≠ none
            ↔ ¬ (vmSpec.Image.OSType = OSTypeWindows
              ∨ vmSpec.Image.OSType = OSTypeWindows2022)))
    ∧ (∃ (d : Deps) (s : Service) (vmSpec : Spec) (g n : String) (vm : VirtualMachine)
        (props : VirtualMachineProperties) (os : OSProfile),
        vmSpec.Image.OSType = OSTypeWindows ∧ vmSpec.OSDisk.OSType = OSTypeLinux
        ∧ Event.createOrUpdate g n vm ∈ (Service.Reconcile d s (.vm vmSpec)).2
        ∧ vm.VirtualMachineProperties = some props ∧ props.OsProfile = some os
        ∧ os.OsType = OSTypeLinux
        ∧ os.LinuxConfiguration = none ∧ os.WindowsConfiguration ≠ none
        ∧ os.AdminUsername = some "Administrator"
        ∧ os.ComputerName = some "moc-wab12cd34ef") := by
  constructor
  · intro d s vmSpec g n vm h
    obtain ⟨props, os, r, h1, h2, h3, h4, h5, h6, h7, -⟩ :=
      Reconcile_upsert_osTypes d s vmSpec g n vm h
    exact ⟨props, os, r, h1, h2, h3, h4, h5, h6, h7⟩
  · have htrace : ∃ vm, (Service.Reconcile sampleDeps sampleService (.vm mixedSpec)).2
        = [Event.nicGet "nic1", Event.createOrUpdate "rg1" "vm1" vm] := ⟨_, rfl⟩
    obtain ⟨vm, hvm⟩ := htrace
    have hmem : Event.createOrUpdate "rg1" "vm1" vm
        ∈ (Service.Reconcile sampleDeps sampleService (.vm mixedSpec)).2 := by
      rw [hvm]
      simp
    obtain ⟨props, os, r, h1, h2, h3, h4, h5, h6, h7, h8⟩ :=
      Reconcile_upsert_osTypes sampleDeps sampleService mixedSpec "rg1" "vm1" vm hmem
    have hwin : mixedSpec.Image.OSType = OSTypeWindows
        ∨ mixedSpec.Image.OSType = OSTypeWindows2022 := Or.inl rfl
    have hr : r = "ab12cd34ef" := by
      have h4b : (("ab12cd34ef", none) : String × Option GoError) = (r, none) := h4
      exact (congrArg Prod.fst h4b).symm
    subst hr
    refine ⟨sampleDeps, sampleService, mixedSpec, "rg1", "vm1", vm, props, os, rfl, rfl, hmem,
      h1, h2, h3, ?_, h6.mpr hwin, ?_, ?_⟩
    · by_contra hne
      exact (h7.mp hne) hwin
    · rcases h8 with h8 | h8
      · exact h8
      · exact absurd hwin h8
    · rw [h5, if_pos hwin]
      rfl

/-- Witness of `Reconcile_osType_tag`: the run on `mixedSpec` records an upsert
whose OS profile is tagged Linux and has a Windows credential block. -/
theorem Reconcile_osType_tag_witness :
    ∃ vm props os,
      (Service.Reconcile sampleDeps sampleService (.vm mixedSpec)).2
        = [Event.nicGet "nic1", Event.createOrUpdate "rg1" "vm1" vm]
      ∧ vm.VirtualMachineProperties = some props ∧ props.OsProfile = some os
      ∧ os.OsType = "Linux" ∧ os.WindowsConfiguration ≠ none := by
  have htrace : ∃ vm, (Service.Reconcile sampleDeps sampleService (.vm mixedSpec)).2
      = [Event.nicGet "nic1", Event.createOrUpdate "rg1" "vm1" vm] := ⟨_, rfl⟩
  obtain ⟨vm, hvm⟩ := htrace
  obtain ⟨props, os, r, h1, h2, h3, -, -, h6, -⟩ :=
    Reconcile_osType_tag.1 sampleDeps sampleService mixedSpec "rg1" "vm1" vm
      (by rw [hvm]; simp)
  exact ⟨vm, props, os, hvm, h1, h2, h3, h6.mpr (Or.inl rfl)⟩

end VirtualMachines
